import Mathlib

/-!
Verification of the template-instantiation and project-layout engine of
`src/android_packager.py` (an Android Kotlin source packager).

The Python program is shallowly embedded:

* Python strings are `List Char`.
* `str.replace` (for nonempty patterns), `str.split` on a one-character
  separator, `str.strip`, `str.format` with a single placeholder, and `str()`
  on an `int` are modelled by executable Lean functions below.
* `pathlib` paths are lists of path segments (`List (List Char)`); joining a
  relative string component parses it the way `pathlib` does (splitting on
  the separator and discarding empty and `.` parts).
* The filesystem is a pair of a directory list and an association list of
  file contents; `Path.write_text` (which runs `mkdir(parents=True)` on the
  parent first) and `shutil.copy2` become pure state transformers.
* `subprocess.run` is an oracle `BuildEnv.proc` mapping a command and working
  directory to either a `FileNotFoundError` (tool not installed) or an exit
  code; `check=True` raising `CalledProcessError` is modelled explicitly.

All definitions are executable; claims are settled against them.
-/

set_option maxRecDepth 20000

/-! ## Python string primitives -/

/-- One step of Python `s.replace(pat, rep)` with explicit fuel: scan left to
right; on a match of `pat`, emit `rep` and continue after the match.  The fuel
is only needed to make the recursion structural; `pyReplace` below supplies
enough fuel to process the whole string (for nonempty `pat`, each step
consumes at least one input character).  Faithful to Python for nonempty
patterns; the program only ever replaces nonempty placeholder tokens. -/
def replaceAux (pat rep : List Char) : Nat → List Char → List Char
  | _, [] => []
  | 0, s => s
  | fuel + 1, c :: cs =>
    if pat.isPrefixOf (c :: cs) then
      rep ++ replaceAux pat rep fuel ((c :: cs).drop pat.length)
    else
      c :: replaceAux pat rep fuel cs

/-- Python `s.replace(pat, rep)` for a nonempty pattern `pat`: replace every
non-overlapping occurrence, scanning left to right, without rescanning the
replacement text. -/
def pyReplace (s pat rep : List Char) : List Char :=
  replaceAux pat rep s.length s

/-- Python `sep.join`-style splitting: `s.split(sep)` for a one-character
separator, as used by `application_id.split(".")`.  `"".split(".") = [""]`
and consecutive separators yield empty fields, exactly as in Python. -/
def splitOnChar (sep : Char) : List Char → List (List Char)
  | [] => [[]]
  | c :: cs =>
    if c == sep then
      [] :: splitOnChar sep cs
    else
      match splitOnChar sep cs with
      | [] => [[c]]
      | t :: ts => (c :: t) :: ts

/-- Whitespace characters removed by Python `str.strip()` (the ASCII ones;
the program never feeds other whitespace to `strip`). -/
def pyIsSpace (c : Char) : Bool :=
  c == ' ' || c == '\t' || c == '\n' || c == '\x0d' || c == '\x0b' || c == '\x0c'

/-- Python `str.strip()`: drop leading and trailing whitespace. -/
def pyStrip (s : List Char) : List Char :=
  ((s.dropWhile pyIsSpace).reverse.dropWhile pyIsSpace).reverse

/-- The decimal digit character for `n < 10`. -/
def digitChar (n : Nat) : Char := Char.ofNat (48 + n)

/-- Decimal digits of `n`, most significant first, with explicit fuel. -/
def natStrAux : Nat → Nat → List Char
  | 0, _ => []
  | fuel + 1, n =>
    if n < 10 then [digitChar n] else natStrAux fuel (n / 10) ++ [digitChar (n % 10)]

/-- Python `str()` on a nonnegative integer: base-10, no leading zeros. -/
def natStr (n : Nat) : List Char := natStrAux (n + 1) n

/-- Python `str()` on an `int` (a minus sign followed by the digits when
negative). -/
def pyStr (i : Int) : List Char :=
  if i < 0 then '-' :: natStr i.natAbs else natStr i.toNat

/-- Does `sub` occur as a contiguous substring (Python `sub in s`)? -/
def occursB (sub : List Char) : List Char → Bool
  | [] => sub.isPrefixOf []
  | c :: cs => sub.isPrefixOf (c :: cs) || occursB sub cs

/-- No occurrence of `pat` starts at any position of `s` (matches that would
need characters beyond the end of `s` do not count). -/
def noMatchB (pat : List Char) : List Char → Bool
  | [] => true
  | c :: cs => !pat.isPrefixOf (c :: cs) && noMatchB pat cs

/-- `chunkSafeB pat a` says that scanning `a ++ r` for `pat` can neither find
a match inside `a` nor start a match in `a` that continues into `r`, for any
continuation `r`: at every position of `a`, the remaining characters of `a`
are not a pattern occurrence and are not a prefix of the pattern either. -/
def chunkSafeB (pat : List Char) : List Char → Bool
  | [] => true
  | c :: cs => !pat.isPrefixOf (c :: cs) && !(c :: cs).isPrefixOf pat && chunkSafeB pat cs

/-- `tailsSafeB pat b` says that no proper nonempty tail of `pat` is a prefix
of `b`; a match of `pat` begun inside unknown text placed directly before `b`
would need exactly such a tail, so this rules those straddling matches out. -/
def tailsSafeB (pat b : List Char) : Bool :=
  (List.range pat.length).all fun j => j == 0 || !(pat.drop j).isPrefixOf b

/-! ## Templates of `src/android_packager.py` (lines 24-147) -/

/-- Template text of `ANDROID_MANIFEST` from `src/android_packager.py`. -/
def ANDROID_MANIFEST : List Char := "<?xml version=\"1.0\" encoding=\"utf-8\"?>\n<manifest xmlns:android=\"http://schemas.android.com/apk/res/android\">\n\n    <application\n        android:allowBackup=\"true\"\n        android:icon=\"@android:drawable/sym_def_app_icon\"\n        android:label=\"@string/app_name\"\n        android:roundIcon=\"@android:drawable/sym_def_app_icon\"\n        android:supportsRtl=\"true\"\n        android:theme=\"@style/Theme.AppCompat.Light.NoActionBar\">\n        <activity\n            android:name=\".MainActivity\"\n            android:exported=\"true\">\n            <intent-filter>\n                <action android:name=\"android.intent.action.MAIN\" />\n                <category android:name=\"android.intent.category.LAUNCHER\" />\n            </intent-filter>\n        </activity>\n    </application>\n\n</manifest>\n".data

/-- Template text of `STRINGS_XML` from `src/android_packager.py`. -/
def STRINGS_XML : List Char := "<?xml version=\"1.0\" encoding=\"utf-8\"?>\n<resources>\n    <string name=\"app_name\">\x7bapp_name\x7d</string>\n</resources>\n".data

/-- Template text of `SETTINGS_GRADLE` from `src/android_packager.py`. -/
def SETTINGS_GRADLE : List Char := "pluginManagement \x7b\n    repositories \x7b\n        google()\n        mavenCentral()\n        gradlePluginPortal()\n    \x7d\n\x7d\n\ndependencyResolutionManagement \x7b\n    repositoriesMode.set(RepositoriesMode.FAIL_ON_PROJECT_REPOS)\n    repositories \x7b\n        google()\n        mavenCentral()\n    \x7d\n\x7d\n\nrootProject.name = \"__PROJECT_NAME__\"\ninclude(\":app\")\n".data

/-- Template text of `ROOT_BUILD_GRADLE` from `src/android_packager.py`. -/
def ROOT_BUILD_GRADLE : List Char := "plugins \x7b\n    id(\"com.android.application\") version \"8.5.2\" apply false\n    id(\"org.jetbrains.kotlin.android\") version \"1.9.24\" apply false\n\x7d\n".data

/-- Template text of `APP_BUILD_GRADLE` from `src/android_packager.py`. -/
def APP_BUILD_GRADLE : List Char := "plugins \x7b\n    id(\"com.android.application\")\n    id(\"org.jetbrains.kotlin.android\")\n\x7d\n\nandroid \x7b\n    namespace = \"__APPLICATION_ID__\"\n    compileSdk = __COMPILE_SDK__\n\n    defaultConfig \x7b\n        applicationId = \"__APPLICATION_ID__\"\n        minSdk = __MIN_SDK__\n        targetSdk = __TARGET_SDK__\n        versionCode = 1\n        versionName = \"1.0\"\n\n        testInstrumentationRunner = \"androidx.test.runner.AndroidJUnitRunner\"\n    \x7d\n\n    buildTypes \x7b\n        release \x7b\n            isMinifyEnabled = false\n            proguardFiles(\n                getDefaultProguardFile(\"proguard-android-optimize.txt\"),\n                \"proguard-rules.pro\"\n            )\n        \x7d\n    \x7d\n\n    compileOptions \x7b\n        sourceCompatibility = JavaVersion.VERSION_17\n        targetCompatibility = JavaVersion.VERSION_17\n    \x7d\n\n    kotlinOptions \x7b\n        jvmTarget = \"17\"\n    \x7d\n\x7d\n\ndependencies \x7b\n    implementation(\"androidx.core:core-ktx:1.13.1\")\n    implementation(\"androidx.appcompat:appcompat:1.7.0\")\n    implementation(\"com.google.android.material:material:1.12.0\")\n\x7d\n".data

/-- Template text of `GRADLE_PROPERTIES` from `src/android_packager.py`. -/
def GRADLE_PROPERTIES : List Char := "org.gradle.jvmargs=-Xmx2048m -Dfile.encoding=UTF-8\nandroid.useAndroidX=true\nkotlin.code.style=official\nandroid.nonTransitiveRClass=true\n".data

/-- Template text of `MAIN_ACTIVITY_TEMPLATE` from `src/android_packager.py`. -/
def MAIN_ACTIVITY_TEMPLATE : List Char := "package __APPLICATION_ID__\n\nimport android.os.Bundle\nimport android.widget.TextView\nimport androidx.appcompat.app.AppCompatActivity\n\nclass MainActivity : AppCompatActivity() \x7b\n    override fun onCreate(savedInstanceState: Bundle?) \x7b\n        super.onCreate(savedInstanceState)\n        val textView = TextView(this).apply \x7b\n            text = \"Hello from generated Android app\"\n            textSize = 24f\n        \x7d\n        setContentView(textView)\n    \x7d\n\x7d\n".data

/-- The application-id placeholder token. -/
def patAppId : List Char := "__APPLICATION_ID__".data

/-- The compile-SDK placeholder token. -/
def patCompile : List Char := "__COMPILE_SDK__".data

/-- The min-SDK placeholder token. -/
def patMin : List Char := "__MIN_SDK__".data

/-- The target-SDK placeholder token. -/
def patTarget : List Char := "__TARGET_SDK__".data

/-- The project-name placeholder token. -/
def patProjectName : List Char := "__PROJECT_NAME__".data

/-- The `str.format` placeholder of `STRINGS_XML`. -/
def patAppName : List Char := "\x7bapp_name\x7d".data

/-- Concrete piece of `APP_BUILD_GRADLE` before the first
`__APPLICATION_ID__` occurrence. -/
def chunkX0 : List Char := "plugins \x7b\n    id(\"com.android.application\")\n    id(\"org.jetbrains.kotlin.android\")\n\x7d\n\nandroid \x7b\n    namespace = \"".data

/-- Concrete piece of `APP_BUILD_GRADLE` between `__APPLICATION_ID__` and
`__COMPILE_SDK__`. -/
def chunkX1a : List Char := "\"\n    compileSdk = ".data

/-- Concrete piece of `APP_BUILD_GRADLE` between `__COMPILE_SDK__` and the
second `__APPLICATION_ID__` occurrence. -/
def chunkX1b : List Char := "\n\n    defaultConfig \x7b\n        applicationId = \"".data

/-- Concrete piece of `APP_BUILD_GRADLE` between the second
`__APPLICATION_ID__` occurrence and `__MIN_SDK__`. -/
def chunkY1a : List Char := "\"\n        minSdk = ".data

/-- Concrete piece of `APP_BUILD_GRADLE` between `__MIN_SDK__` and
`__TARGET_SDK__`. -/
def chunkY2a : List Char := "\n        targetSdk = ".data

/-- Concrete piece of `APP_BUILD_GRADLE` after `__TARGET_SDK__`. -/
def chunkY3 : List Char := "\n        versionCode = 1\n        versionName = \"1.0\"\n\n        testInstrumentationRunner = \"androidx.test.runner.AndroidJUnitRunner\"\n    \x7d\n\n    buildTypes \x7b\n        release \x7b\n            isMinifyEnabled = false\n            proguardFiles(\n                getDefaultProguardFile(\"proguard-android-optimize.txt\"),\n                \"proguard-rules.pro\"\n            )\n        \x7d\n    \x7d\n\n    compileOptions \x7b\n        sourceCompatibility = JavaVersion.VERSION_17\n        targetCompatibility = JavaVersion.VERSION_17\n    \x7d\n\n    kotlinOptions \x7b\n        jvmTarget = \"17\"\n    \x7d\n\x7d\n\ndependencies \x7b\n    implementation(\"androidx.core:core-ktx:1.13.1\")\n    implementation(\"androidx.appcompat:appcompat:1.7.0\")\n    implementation(\"com.google.android.material:material:1.12.0\")\n\x7d\n".data

/-! ## Paths and the filesystem model -/

/-- A path is a list of segments, as in `pathlib.PurePath.parts` (for the
relative paths the program builds). -/
abbrev PathT := List (List Char)

/-- Parse one relative string component the way `pathlib` does when joining:
split on the separator and drop empty parts and `.` parts (so
`Path("a", "", "b") == Path("a/b")` and `Path("") == Path(".")` with no
parts). -/
def parseRelComp (s : List Char) : PathT :=
  (splitOnChar '/' s).filter fun t => !(t.isEmpty || t == ['.'])

/-- `Path(*application_id.split("."))` from line 190: split the dotted id and
join the pieces as path components. -/
def appIdSegs (applicationId : List Char) : PathT :=
  ((splitOnChar '.' applicationId).map parseRelComp).flatten

/-- `str()` of a relative path (POSIX rendering, as used for
`str(gradlew_path)` on line 208). -/
def pathStr (p : PathT) : List Char :=
  List.intercalate ['/'] p

/-- The filesystem: the set of existing directories and an association list
of file contents (later writes are consed on the front and shadow earlier
ones). -/
structure FS where
  dirs : List PathT
  files : List (PathT × List Char)
deriving DecidableEq

/-- First-match lookup in the file association list. -/
def lookupF : List (PathT × List Char) → PathT → Option (List Char)
  | [], _ => none
  | (q, c) :: tl, p => if q == p then some c else lookupF tl p

/-- Contents of the file at `p`, if any. -/
def FS.read (fs : FS) (p : PathT) : Option (List Char) :=
  lookupF fs.files p

/-- `Path.exists()`: `p` names an existing directory or file. -/
def FS.existsP (fs : FS) (p : PathT) : Bool :=
  fs.dirs.contains p || fs.files.any fun e => e.1 == p

/-- All prefixes of a path: the chain of directories
`mkdir(parents=True, exist_ok=True)` guarantees to exist afterwards. -/
def prefixesOf (p : PathT) : List PathT :=
  (List.range (p.length + 1)).map fun n => p.take n

/-- `p.mkdir(parents=True, exist_ok=True)`. -/
def mkdirParents (p : PathT) (fs : FS) : FS :=
  { fs with dirs := prefixesOf p ++ fs.dirs }

/-- `write_text` from lines 155-157: create the parent directory chain, then
write the content at `path`. -/
def write_text (path : PathT) (content : List Char) (fs : FS) : FS :=
  { dirs := prefixesOf path.dropLast ++ fs.dirs,
    files := (path, content) :: fs.files }

/-! ## The Project Materializer (`create_project`, lines 160-197) -/

/-- The arguments of `create_project` (the `ProjectSpec`). -/
structure ProjectArgs where
  source_file : Option PathT
  output_dir : PathT
  project_name : List Char
  app_name : List Char
  application_id : List Char
  compile_sdk : Int
  min_sdk : Int
  target_sdk : Int
deriving DecidableEq

/-- Failures of `create_project`: `FileExistsError` from line 172, and the
`FileNotFoundError` that `shutil.copy2` raises on line 193 when the supplied
source file cannot be read. -/
inductive CreateErr where
  | fileExists
  | sourceNotFound
deriving DecidableEq

/-- `output_dir / project_name` (line 170). -/
def rootOf (a : ProjectArgs) : PathT :=
  a.output_dir ++ parseRelComp a.project_name

/-- The settings file rendering (line 174). -/
def renderSettings (projectName : List Char) : List Char :=
  pyReplace SETTINGS_GRADLE patProjectName projectName

/-- The app-module build file rendering (lines 175-180): replace the
application id, then the three SDK placeholders, in that order. -/
def renderAppBuild (applicationId : List Char) (compileSdk minSdk targetSdk : Int) : List Char :=
  pyReplace (pyReplace (pyReplace (pyReplace APP_BUILD_GRADLE
    patAppId applicationId)
    patCompile (pyStr compileSdk))
    patMin (pyStr minSdk))
    patTarget (pyStr targetSdk)

/-- `STRINGS_XML.format(app_name=app_name)` (line 188). -/
def renderStrings (appName : List Char) : List Char :=
  pyReplace STRINGS_XML patAppName appName

/-- The generated source stub (line 195). -/
def renderMainActivity (applicationId : List Char) : List Char :=
  pyReplace MAIN_ACTIVITY_TEMPLATE patAppId applicationId

/-- The source-stub path (line 190):
`project_root / "app" / "src" / "main" / "java" / Path(*application_id.split(".")) / "MainActivity.kt"`. -/
def mainActivityPath (a : ProjectArgs) : PathT :=
  rootOf a ++ ["app".data, "src".data, "main".data, "java".data]
    ++ appIdSegs a.application_id ++ ["MainActivity.kt".data]

/-- `create_project` (lines 160-197) as a state transformer: returns the
filesystem after the call together with either the project root or the
exception raised.  The `FileExistsError` check happens before any write; the
seven template writes happen in the order of lines 182-188; the source stub
is then either copied byte-for-byte from the caller's file or rendered from
the built-in template. -/
def create_project (a : ProjectArgs) (fs : FS) : FS × Except CreateErr PathT :=
  let project_root := rootOf a
  if fs.existsP project_root then
    (fs, .error .fileExists)
  else
    let fs1 := write_text (project_root ++ ["settings.gradle.kts".data]) (renderSettings a.project_name) fs
    let fs2 := write_text (project_root ++ ["build.gradle.kts".data]) ROOT_BUILD_GRADLE fs1
    let fs3 := write_text (project_root ++ ["gradle.properties".data]) GRADLE_PROPERTIES fs2
    let fs4 := write_text (project_root ++ ["app".data, "build.gradle.kts".data])
      (renderAppBuild a.application_id a.compile_sdk a.min_sdk a.target_sdk) fs3
    let fs5 := write_text (project_root ++ ["app".data, "proguard-rules.pro".data]) [] fs4
    let fs6 := write_text (project_root ++ ["app".data, "src".data, "main".data, "AndroidManifest.xml".data]) ANDROID_MANIFEST fs5
    let fs7 := write_text (project_root ++ ["app".data, "src".data, "main".data, "res".data, "values".data, "strings.xml".data])
      (renderStrings a.app_name) fs6
    match a.source_file with
    | some src =>
      let fs8 := mkdirParents (mainActivityPath a).dropLast fs7
      match fs8.read src with
      | some content => (write_text (mainActivityPath a) content fs8, .ok project_root)
      | none => (fs8, .error .sourceNotFound)
    | none =>
      (write_text (mainActivityPath a) (renderMainActivity a.application_id) fs7, .ok project_root)

/-! ## The Build Invoker (`run_gradle_build`, lines 200-213) and `main` -/

/-- Result of `subprocess.run(cmd, cwd=..., check=True)`: either the
executable was not found (`FileNotFoundError`) or the process ran and exited
with a code (`check=True` turns a nonzero code into `CalledProcessError`). -/
inductive ProcResult where
  | notFound
  | exit (code : Int)
deriving DecidableEq

/-- The host environment of the Build Invoker: the platform test of line 201
and the subprocess oracle (command, working directory). -/
structure BuildEnv where
  isWindows : Bool
  proc : List (List Char) → PathT → ProcResult

/-- The exceptions `run_gradle_build` can raise. -/
inductive PyExc where
  | calledProcessError (returncode : Int)
  | fileNotFoundError
deriving DecidableEq

/-- Line 201: the platform-appropriate wrapper name. -/
def gradlewName (env : BuildEnv) : List Char :=
  if env.isWindows then "gradlew.bat".data else "gradlew".data

/-- The bootstrap command of line 206. -/
def gradleWrapperCmd : List (List Char) := ["gradle".data, "wrapper".data]

/-- The main build command of lines 208-210. -/
def assembleCmd (gradlewPath : PathT) (offline : Bool) : List (List Char) :=
  [pathStr gradlewPath, "assembleDebug".data] ++ if offline then ["--offline".data] else []

/-- `run_gradle_build` (lines 200-213): returns the exception raised (if any)
together with the list of subprocess invocations attempted, in order.  When
the wrapper is absent, `gradle wrapper` is attempted first with `check=True`;
a `FileNotFoundError` or `CalledProcessError` from it propagates before the
`assembleDebug` command is ever attempted. -/
def run_gradle_build (env : BuildEnv) (fs : FS) (project_root : PathT) (offline : Bool) :
    Option PyExc × List (List (List Char)) :=
  let gradlew_path := project_root ++ [gradlewName env]
  let bootstrap : Option PyExc × List (List (List Char)) :=
    if fs.existsP gradlew_path then
      (none, [])
    else
      match env.proc gradleWrapperCmd project_root with
      | .notFound => (some .fileNotFoundError, [gradleWrapperCmd])
      | .exit c => (if c == 0 then none else some (.calledProcessError c), [gradleWrapperCmd])
  match bootstrap with
  | (some e, cmds) => (some e, cmds)
  | (none, cmds) =>
    let cmd := assembleCmd gradlew_path offline
    match env.proc cmd project_root with
    | .notFound => (some .fileNotFoundError, cmds ++ [cmd])
    | .exit c => (if c == 0 then none else some (.calledProcessError c), cmds ++ [cmd])

/-- The `try/except` around `run_gradle_build` in `main` (lines 255-264):
exit code 0 on success, `exc.returncode or 1` for a `CalledProcessError`, and
4 for a `FileNotFoundError`. -/
def buildPhase (env : BuildEnv) (fs : FS) (project_root : PathT) (offline : Bool) :
    Int × List (List (List Char)) :=
  match run_gradle_build env fs project_root offline with
  | (none, cmds) => (0, cmds)
  | (some (.calledProcessError c), cmds) => (if c == 0 then 1 else c, cmds)
  | (some .fileNotFoundError, cmds) => (4, cmds)

/-- The parsed command-line arguments of `main` (lines 218-227). -/
structure Args where
  source : Option PathT
  out : PathT
  project : List Char
  app_name : List Char
  application_id : List Char
  compile_sdk : Int
  min_sdk : Int
  target_sdk : Int
  build : Bool
  offline : Bool

/-- `safe_name` (lines 150-152): strip, delete every character outside
`[A-Za-z0-9_-]`, and fall back when nothing is left. -/
def isAllowedNameChar (c : Char) : Bool :=
  ('A' ≤ c && c ≤ 'Z') || ('a' ≤ c && c ≤ 'z') || ('0' ≤ c && c ≤ '9') || c == '_' || c == '-'

/-- `safe_name(name, fallback)` from lines 150-152:
`re.sub(r"[^A-Za-z0-9_\-]", "", name.strip()) or fallback`. -/
def safe_name (name fallback : List Char) : List Char :=
  let cleaned := (pyStrip name).filter isAllowedNameChar
  if cleaned.isEmpty then fallback else cleaned

/-- `main` (lines 216-266) after argument parsing: returns the process exit
code, the final filesystem, and the subprocess invocations attempted. -/
def mainRun (args : Args) (env : BuildEnv) (fs : FS) : Int × FS × List (List (List Char)) :=
  let project_name := safe_name args.project "AiGeneratedAndroidApp".data
  let afterCheck : Option (Int × FS × List (List (List Char))) :=
    match args.source with
    | some src => if fs.existsP src then none else some (2, fs, [])
    | none => none
  match afterCheck with
  | some r => r
  | none =>
    let a : ProjectArgs :=
      { source_file := args.source, output_dir := args.out, project_name := project_name,
        app_name := args.app_name, application_id := args.application_id,
        compile_sdk := args.compile_sdk, min_sdk := args.min_sdk, target_sdk := args.target_sdk }
    match create_project a fs with
    | (fs', .error .fileExists) => (3, fs', [])
    | (fs', .error .sourceNotFound) => (1, fs', [])
    | (fs', .ok project_root) =>
      if args.build then
        let r := buildPhase env fs' project_root args.offline
        (r.1, fs', r.2)
      else
        (0, fs', [])

/-- A canonical positive base-10 numeral: a nonzero leading digit followed by
digits only. -/
def isCanonPosB : List Char → Bool
  | [] => false
  | e :: es => e.isDigit && !(e == '0') && es.all (fun x => x.isDigit)

/-- Canonical base-10 rendering of a natural number: digit characters only,
and no leading zero unless the string is exactly `"0"`. -/
def isCanonNatB (l : List Char) : Bool :=
  l == ['0'] || isCanonPosB l

/-- Canonical base-10 rendering of an integer: an optional minus sign
(followed by a nonzero numeral) or a canonical natural numeral — no leading
zeros and no grouping separators. -/
def isCanonIntB (l : List Char) : Bool :=
  if l.head? == some '-' then isCanonPosB l.tail else isCanonNatB l

/-- The residue of the application id once the three SDK replacement passes
of lines 177-179 have run over the whole build file; an application id that
contains no SDK placeholder token is left unchanged by it. -/
def rId (applicationId : List Char) (compileSdk minSdk targetSdk : Int) : List Char :=
  pyReplace (pyReplace (pyReplace applicationId
    patCompile (pyStr compileSdk))
    patMin (pyStr minSdk))
    patTarget (pyStr targetSdk)

/-- The empty filesystem, used for concrete runs. -/
def fsEmpty : FS := ⟨[], []⟩

/-- A concrete `ProjectSpec` used for concrete runs. -/
def aBase : ProjectArgs :=
  { source_file := none, output_dir := ["dist".data], project_name := "Proj".data,
    app_name := "My App".data, application_id := "com.example.app".data,
    compile_sdk := 34, min_sdk := 24, target_sdk := 34 }

/-- A concrete `ProjectSpec` whose application id has an empty segment. -/
def aDots : ProjectArgs := { aBase with application_id := "com..app".data }

/-- A concrete `ProjectSpec` with a caller-supplied source file. -/
def aSrc : ProjectArgs := { aBase with source_file := some ["src.kt".data] }

/-- A filesystem holding the caller-supplied source file of `aSrc`. -/
def fsSrc : FS := ⟨[], [(["src.kt".data], "this is not kotlin".data)]⟩

/-- A build environment where no executable can be found. -/
def envNotFound : BuildEnv := ⟨false, fun _ _ => .notFound⟩

/-- A build environment where every invocation exits with code 1. -/
def envExitOne : BuildEnv := ⟨false, fun _ _ => .exit 1⟩

/-- Concrete command-line arguments whose source path does not exist. -/
def argsMissingSrc : Args :=
  { source := some ["missing.kt".data], out := ["dist".data], project := "Proj".data,
    app_name := "My App".data, application_id := "com.example.app".data,
    compile_sdk := 34, min_sdk := 24, target_sdk := 34, build := false, offline := false }

/-! ## Lemmas about the replacement scanner -/

theorem take_append_of_le {α : Type} (n : Nat) (l₁ l₂ : List α) (h : n ≤ l₁.length) :
    (l₁ ++ l₂).take n = l₁.take n := by
  have h1 : (l₁ ++ l₂).take n = ((l₁ ++ l₂).take l₁.length).take n := by
    rw [List.take_take, Nat.min_eq_left h]
  rw [h1, List.take_left]

theorem drop_append_of_le {α : Type} (n : Nat) (l₁ l₂ : List α) (h : n ≤ l₁.length) :
    (l₁ ++ l₂).drop n = l₁.drop n ++ l₂ := by
  conv_lhs => rw [← List.take_append_drop n l₁]
  rw [List.append_assoc, List.drop_left' (by rw [List.length_take]; omega)]

theorem prefix_of_prefix_append {α : Type} {pat x y : List α} (h : pat <+: x ++ y)
    (hlen : pat.length ≤ x.length) : pat <+: x := by
  have h' := List.prefix_iff_eq_take.mp h
  have hx : pat = x.take pat.length := by
    conv_lhs => rw [h']
    rw [take_append_of_le _ _ _ hlen]
  have hp := List.take_prefix pat.length x
  rwa [← hx] at hp

theorem straddle_left {α : Type} {pat x y : List α} (h : pat <+: x ++ y)
    (hlen : x.length < pat.length) : x <+: pat := by
  have h' := List.prefix_iff_eq_take.mp h
  have hx : pat.take x.length = x := by
    conv_lhs => rw [h']
    rw [List.take_take, Nat.min_eq_left (Nat.le_of_lt hlen), List.take_left]
  have hp := List.take_prefix x.length pat
  rwa [hx] at hp

theorem straddle_right {α : Type} {pat x y : List α} (h : pat <+: x ++ y)
    (hlen : x.length < pat.length) : pat.drop x.length <+: y := by
  have h' := List.prefix_iff_eq_take.mp h
  have hd : pat.drop x.length = y.take (pat.length - x.length) := by
    conv_lhs => rw [h']
    rw [List.drop_take, List.drop_left]
  rw [hd]
  exact List.take_prefix _ _

theorem replaceAux_nil (pat rep : List Char) (f : Nat) : replaceAux pat rep f [] = [] := by
  cases f <;> rfl

theorem replaceAux_fuel (pat rep : List Char) (hpat : pat ≠ []) :
    ∀ f₁ f₂ s, s.length ≤ f₁ → s.length ≤ f₂ →
      replaceAux pat rep f₁ s = replaceAux pat rep f₂ s := by
  intro f₁
  induction f₁ with
  | zero =>
    intro f₂ s h1 _
    have : s = [] := List.length_eq_zero.mp (Nat.le_zero.mp h1)
    subst this
    rw [replaceAux_nil, replaceAux_nil]
  | succ g ih =>
    intro f₂ s h1 h2
    cases s with
    | nil => rw [replaceAux_nil, replaceAux_nil]
    | cons c cs =>
      have hp : 0 < pat.length := List.length_pos.mpr hpat
      cases f₂ with
      | zero => simp at h2
      | succ g₂ =>
        show (if pat.isPrefixOf (c :: cs) then
            rep ++ replaceAux pat rep g ((c :: cs).drop pat.length)
          else c :: replaceAux pat rep g cs) =
          (if pat.isPrefixOf (c :: cs) then
            rep ++ replaceAux pat rep g₂ ((c :: cs).drop pat.length)
          else c :: replaceAux pat rep g₂ cs)
        by_cases hc : pat.isPrefixOf (c :: cs)
        · rw [if_pos hc, if_pos hc, ih g₂ _ (by simp at h1 ⊢; omega) (by simp at h2 ⊢; omega)]
        · rw [if_neg hc, if_neg hc, ih g₂ _ (by simp at h1 ⊢; omega) (by simp at h2 ⊢; omega)]

theorem replaceAux_noMatch (pat rep : List Char) :
    ∀ s, noMatchB pat s = true → ∀ f, replaceAux pat rep f s = s := by
  intro s
  induction s with
  | nil => intro _ f; exact replaceAux_nil _ _ _
  | cons c cs ih =>
    intro h f
    rw [noMatchB, Bool.and_eq_true, Bool.not_eq_true'] at h
    cases f with
    | zero => rfl
    | succ g =>
      show (if pat.isPrefixOf (c :: cs) then
          rep ++ replaceAux pat rep g ((c :: cs).drop pat.length)
        else c :: replaceAux pat rep g cs) = c :: cs
      rw [if_neg (by rw [h.1]; exact Bool.false_ne_true), ih h.2]

theorem pyReplace_noMatch (pat rep s : List Char) (h : noMatchB pat s = true) :
    pyReplace s pat rep = s :=
  replaceAux_noMatch pat rep s h _

theorem chunkSafeB_cons (pat : List Char) (c : Char) (cs : List Char)
    (h : chunkSafeB pat (c :: cs) = true) :
    pat.isPrefixOf (c :: cs) = false ∧ (c :: cs).isPrefixOf pat = false ∧ chunkSafeB pat cs = true := by
  rw [chunkSafeB, Bool.and_eq_true, Bool.and_eq_true, Bool.not_eq_true', Bool.not_eq_true'] at h
  exact ⟨h.1.1, h.1.2, h.2⟩

theorem chunk_no_prefix (pat : List Char) (c : Char) (cs r : List Char)
    (h : chunkSafeB pat (c :: cs) = true) : ¬ pat <+: (c :: cs) ++ r := by
  intro hpre
  obtain ⟨h1, h2, _⟩ := chunkSafeB_cons pat c cs h
  by_cases hlen : pat.length ≤ (c :: cs).length
  · have hb := List.isPrefixOf_iff_prefix.mpr (prefix_of_prefix_append hpre hlen)
    rw [h1] at hb
    exact Bool.false_ne_true hb
  · have hb := List.isPrefixOf_iff_prefix.mpr (straddle_left hpre (by omega))
    rw [h2] at hb
    exact Bool.false_ne_true hb

theorem pyReplace_chunk (pat rep : List Char) :
    ∀ A r, chunkSafeB pat A = true →
      pyReplace (A ++ r) pat rep = A ++ pyReplace r pat rep := by
  intro A
  induction A with
  | nil => intro r _; simp
  | cons c A' ih =>
    intro r h
    have hnp : ¬ pat <+: (c :: A') ++ r := chunk_no_prefix pat c A' r h
    have hnp' : pat.isPrefixOf (c :: (A' ++ r)) = false := by
      rw [← Bool.not_eq_true, List.isPrefixOf_iff_prefix, ← List.cons_append]
      exact hnp
    show replaceAux pat rep ((c :: A' ++ r).length) (c :: (A' ++ r)) = c :: A' ++ pyReplace r pat rep
    rw [show (c :: A' ++ r).length = (A' ++ r).length + 1 by simp]
    show (if pat.isPrefixOf (c :: (A' ++ r)) then
        rep ++ replaceAux pat rep ((A' ++ r).length) ((c :: (A' ++ r)).drop pat.length)
      else c :: replaceAux pat rep ((A' ++ r).length) (A' ++ r)) = c :: A' ++ pyReplace r pat rep
    rw [if_neg (by rw [hnp']; exact Bool.false_ne_true)]
    have := ih r (chunkSafeB_cons pat c A' h).2.2
    rw [List.cons_append]
    exact congrArg (c :: ·) this

theorem pyReplace_hit (pat rep r : List Char) (hpat : pat ≠ []) :
    pyReplace (pat ++ r) pat rep = rep ++ pyReplace r pat rep := by
  cases pat with
  | nil => exact absurd rfl hpat
  | cons p pt =>
    show replaceAux (p :: pt) rep (((p :: pt) ++ r).length) ((p :: pt) ++ r) = _
    rw [show ((p :: pt) ++ r).length = (pt ++ r).length + 1 by simp, List.cons_append]
    show (if (p :: pt).isPrefixOf (p :: (pt ++ r)) then
        rep ++ replaceAux (p :: pt) rep ((pt ++ r).length) ((p :: (pt ++ r)).drop (p :: pt).length)
      else p :: replaceAux (p :: pt) rep ((pt ++ r).length) (pt ++ r)) = rep ++ pyReplace r (p :: pt) rep
    rw [if_pos (by
      rw [List.isPrefixOf_iff_prefix, ← List.cons_append]
      exact List.prefix_append _ _)]
    rw [show (p :: (pt ++ r)).drop (p :: pt).length = r by
      rw [← List.cons_append]
      exact List.drop_left _ _]
    rw [replaceAux_fuel (p :: pt) rep (by simp) _ r.length r (by simp) (Nat.le_refl _)]
    rfl

theorem pyReplace_nil (pat rep : List Char) : pyReplace [] pat rep = [] := rfl

theorem pyReplace_cons_neg (pat rep : List Char) (c : Char) (cs : List Char)
    (h : pat.isPrefixOf (c :: cs) = false) :
    pyReplace (c :: cs) pat rep = c :: pyReplace cs pat rep := by
  show replaceAux pat rep ((c :: cs).length) (c :: cs) = _
  rw [List.length_cons]
  show (if pat.isPrefixOf (c :: cs) then
      rep ++ replaceAux pat rep cs.length ((c :: cs).drop pat.length)
    else c :: replaceAux pat rep cs.length cs) = _
  rw [if_neg (by rw [h]; exact Bool.false_ne_true)]
  rfl

theorem pyReplace_comp_aux (pat rep B : List Char) (hpat : pat ≠ [])
    (hB : ∀ j, 0 < j → j < pat.length → ¬ pat.drop j <+: B) :
    ∀ f u, u.length ≤ f →
      pyReplace (u ++ B) pat rep = pyReplace u pat rep ++ pyReplace B pat rep := by
  have hp : 0 < pat.length := List.length_pos.mpr hpat
  intro f
  induction f with
  | zero =>
    intro u hu
    have : u = [] := List.length_eq_zero.mp (Nat.le_zero.mp hu)
    subst this
    simp [pyReplace_nil]
  | succ g ih =>
    intro u hu
    cases u with
    | nil => simp [pyReplace_nil]
    | cons c u' =>
      by_cases hc : pat.isPrefixOf ((c :: u') ++ B) = true
      · have hpre : pat <+: (c :: u') ++ B := List.isPrefixOf_iff_prefix.mp hc
        by_cases hlen : pat.length ≤ (c :: u').length
        · have hpu : pat <+: c :: u' := prefix_of_prefix_append hpre hlen
          have hd : pat ++ (c :: u').drop pat.length = c :: u' := by
            have h' := List.prefix_iff_eq_take.mp hpu
            conv_rhs => rw [← List.take_append_drop pat.length (c :: u')]
            rw [← h']
          have hdlen : ((c :: u').drop pat.length).length ≤ g := by
            rw [List.length_drop]
            simp only [List.length_cons]
            simp only [List.length_cons] at hu
            omega
          calc pyReplace ((c :: u') ++ B) pat rep
              = pyReplace (pat ++ ((c :: u').drop pat.length ++ B)) pat rep := by
                rw [← List.append_assoc, hd]
            _ = rep ++ pyReplace ((c :: u').drop pat.length ++ B) pat rep :=
                pyReplace_hit pat rep _ hpat
            _ = rep ++ (pyReplace ((c :: u').drop pat.length) pat rep ++ pyReplace B pat rep) := by
                rw [ih _ hdlen]
            _ = (rep ++ pyReplace ((c :: u').drop pat.length) pat rep) ++ pyReplace B pat rep := by
                rw [List.append_assoc]
            _ = pyReplace (c :: u') pat rep ++ pyReplace B pat rep := by
                rw [← pyReplace_hit pat rep _ hpat, hd]
        · push_neg at hlen
          have hst := straddle_right hpre hlen
          exact absurd hst (hB (c :: u').length (by simp) hlen)
      · have hcu : pat.isPrefixOf (c :: u') = false := by
          cases hval : pat.isPrefixOf (c :: u') with
          | false => rfl
          | true =>
            exfalso
            apply hc
            rw [List.isPrefixOf_iff_prefix] at hval ⊢
            exact hval.trans (List.prefix_append _ _)
        have hcomb : pat.isPrefixOf (c :: (u' ++ B)) = false := by
          cases hval : pat.isPrefixOf (c :: (u' ++ B)) with
          | false => rfl
          | true => exact absurd hval hc
        rw [List.cons_append, pyReplace_cons_neg pat rep c (u' ++ B) hcomb,
          pyReplace_cons_neg pat rep c u' hcu,
          ih u' (by simp only [List.length_cons] at hu; omega), List.cons_append]

theorem pyReplace_comp (pat rep B u : List Char) (hpat : pat ≠ [])
    (hB : ∀ j, 0 < j → j < pat.length → ¬ pat.drop j <+: B) :
    pyReplace (u ++ B) pat rep = pyReplace u pat rep ++ pyReplace B pat rep :=
  pyReplace_comp_aux pat rep B hpat hB u.length u (Nat.le_refl _)

theorem tailsSafeB_spec (pat b : List Char) (h : tailsSafeB pat b = true) :
    ∀ j, 0 < j → j < pat.length → ¬ pat.drop j <+: b := by
  intro j hj hjlen hpre
  rw [tailsSafeB, List.all_eq_true] at h
  have := h j (List.mem_range.mpr hjlen)
  rw [Bool.or_eq_true] at this
  rcases this with h0 | hnp
  · rw [beq_iff_eq] at h0; omega
  · rw [Bool.not_eq_true', ← Bool.not_eq_true, List.isPrefixOf_iff_prefix] at hnp
    · exact hnp hpre

theorem tailsSafe_ext (pat b z : List Char) (hlen : pat.length ≤ b.length + 1)
    (h : tailsSafeB pat b = true) :
    ∀ j, 0 < j → j < pat.length → ¬ pat.drop j <+: b ++ z := by
  intro j hj hjlen hpre
  have hdl : (pat.drop j).length ≤ b.length := by
    rw [List.length_drop]
    omega
  exact tailsSafeB_spec pat b h j hj hjlen (prefix_of_prefix_append hpre hdl)

theorem noMatchB_of_head (p : Char) (pt : List Char) :
    ∀ u, (∀ c ∈ u, c ≠ p) → noMatchB (p :: pt) u = true := by
  intro u
  induction u with
  | nil => intro _; rfl
  | cons c cs ih =>
    intro h
    have hc : (p == c) = false := beq_eq_false_iff_ne.mpr (Ne.symm (h c (by simp)))
    rw [noMatchB, Bool.and_eq_true]
    constructor
    · rw [List.isPrefixOf, hc, Bool.false_and, Bool.not_false]
    · exact ih fun c hm => h c (by simp [hm])

theorem occursB_nil_sub (b : List Char) : occursB [] b = true := by
  cases b <;> simp [occursB, List.isPrefixOf]

theorem occursB_append_left (sub : List Char) :
    ∀ a b, occursB sub a = true → occursB sub (a ++ b) = true := by
  intro a
  induction a with
  | nil =>
    intro b h
    rw [occursB] at h
    have : sub = [] := List.prefix_nil.mp (List.isPrefixOf_iff_prefix.mp h)
    subst this
    exact occursB_nil_sub b
  | cons c cs ih =>
    intro b h
    rw [occursB, Bool.or_eq_true] at h
    rw [List.cons_append, occursB, Bool.or_eq_true]
    rcases h with h | h
    · left
      rw [List.isPrefixOf_iff_prefix] at h ⊢
      rw [← List.cons_append]
      exact h.trans (List.prefix_append _ _)
    · right
      exact ih b h

theorem occursB_append_right (sub : List Char) :
    ∀ a b, occursB sub b = true → occursB sub (a ++ b) = true := by
  intro a
  induction a with
  | nil => intro b h; exact h
  | cons c cs ih =>
    intro b h
    rw [List.cons_append, occursB, Bool.or_eq_true]
    exact Or.inr (ih b h)

/-! ## Digit-rendering lemmas -/

theorem natStrAux_mem_digits :
    ∀ f n, n < f → ∀ c ∈ natStrAux f n, ∃ d, d < 10 ∧ c = digitChar d := by
  intro f
  induction f with
  | zero => intro n h; omega
  | succ g ih =>
    intro n h c hc
    rw [natStrAux] at hc
    by_cases h10 : n < 10
    · rw [if_pos h10] at hc
      simp at hc
      exact ⟨n, h10, hc⟩
    · rw [if_neg h10] at hc
      rcases List.mem_append.mp hc with hm | hm
      · exact ih (n / 10) (by omega) c hm
      · simp at hm
        exact ⟨n % 10, by omega, hm⟩

theorem natStrAux_canon :
    ∀ f n, n < f → 1 ≤ n → ∃ d ds, natStrAux f n = digitChar d :: ds ∧ 1 ≤ d ∧ d < 10 ∧
      ∀ c ∈ ds, ∃ e, e < 10 ∧ c = digitChar e := by
  intro f
  induction f with
  | zero => intro n h; omega
  | succ g ih =>
    intro n h h1
    rw [natStrAux]
    by_cases h10 : n < 10
    · rw [if_pos h10]
      exact ⟨n, [], rfl, h1, h10, by simp⟩
    · rw [if_neg h10]
      obtain ⟨d, ds, heq, hd1, hd10, hds⟩ := ih (n / 10) (by omega) (by omega)
      refine ⟨d, ds ++ [digitChar (n % 10)], by rw [heq, List.cons_append], hd1, hd10, ?_⟩
      intro c hc
      rcases List.mem_append.mp hc with hm | hm
      · exact hds c hm
      · simp at hm
        exact ⟨n % 10, by omega, hm⟩

theorem natStrAux_ne_nil : ∀ f n, n < f → natStrAux f n ≠ [] := by
  intro f
  cases f with
  | zero => intro n h; omega
  | succ g =>
    intro n _
    rw [natStrAux]
    by_cases h10 : n < 10
    · rw [if_pos h10]; simp
    · rw [if_neg h10]; simp

theorem pyStr_ne_nil (i : Int) : pyStr i ≠ [] := by
  rw [pyStr]
  by_cases hneg : i < 0
  · rw [if_pos hneg]; simp
  · rw [if_neg hneg]
    exact natStrAux_ne_nil _ _ (by omega)

theorem digitChar_ne_underscore (d : Nat) (h : d < 10) : digitChar d ≠ '_' := by
  interval_cases d <;> decide

theorem pyStr_no_underscore (i : Int) : ∀ c ∈ pyStr i, c ≠ '_' := by
  intro c hc
  rw [pyStr] at hc
  by_cases hneg : i < 0
  · rw [if_pos hneg] at hc
    rcases List.mem_cons.mp hc with h | h
    · subst h; decide
    · obtain ⟨d, hd, he⟩ := natStrAux_mem_digits _ _ (by omega) c h
      subst he
      exact digitChar_ne_underscore d hd
  · rw [if_neg hneg] at hc
    obtain ⟨d, hd, he⟩ := natStrAux_mem_digits _ _ (by omega) c hc
    subst he
    exact digitChar_ne_underscore d hd

theorem digitChar_isDigit (d : Nat) (h : d < 10) : (digitChar d).isDigit = true := by
  interval_cases d <;> decide

theorem digitChar_ne_zero_beq (d : Nat) (h1 : 1 ≤ d) (h2 : d < 10) :
    (digitChar d == '0') = false := by
  interval_cases d <;> decide

theorem digitChar_ne_dash_beq (d : Nat) (h : d < 10) : (digitChar d == '-') = false := by
  interval_cases d <;> decide

theorem isCanonPosB_of_canon (d : Nat) (ds : List Char) (hd1 : 1 ≤ d) (hd10 : d < 10)
    (hds : ∀ c ∈ ds, ∃ e, e < 10 ∧ c = digitChar e) :
    isCanonPosB (digitChar d :: ds) = true := by
  rw [isCanonPosB, digitChar_isDigit d hd10, digitChar_ne_zero_beq d hd1 hd10]
  simp only [Bool.true_and, Bool.not_false, List.all_eq_true]
  intro c hc
  obtain ⟨k, hk, he⟩ := hds c hc
  subst he
  exact digitChar_isDigit k hk

theorem natStr_canon (n : Nat) : isCanonNatB (natStr n) = true := by
  cases Nat.eq_zero_or_pos n with
  | inl h0 => subst h0; decide
  | inr h1 =>
    obtain ⟨d, ds, heq, hd1, hd10, hds⟩ := natStrAux_canon (n + 1) n (by omega) h1
    rw [natStr, heq, isCanonNatB, isCanonPosB_of_canon d ds hd1 hd10 hds, Bool.or_true]

theorem natStr_head_digit (n : Nat) :
    ∃ d ds, natStr n = digitChar d :: ds ∧ d < 10 := by
  cases Nat.eq_zero_or_pos n with
  | inl h0 => subst h0; exact ⟨0, [], rfl, by omega⟩
  | inr h1 =>
    obtain ⟨d, ds, heq, _, hd10, _⟩ := natStrAux_canon (n + 1) n (by omega) h1
    exact ⟨d, ds, heq, hd10⟩

theorem some_digitChar_ne_dash (d : Nat) (h : d < 10) :
    ((some (digitChar d) : Option Char) == some '-') = false := by
  interval_cases d <;> decide

/-- Every integer the program renders into a template is a canonical base-10
numeral: no leading zeros, no grouping separators, at most one leading minus
sign. -/
theorem pyStr_canon (i : Int) : isCanonIntB (pyStr i) = true := by
  rw [pyStr]
  by_cases hneg : i < 0
  · rw [if_pos hneg]
    have h1 : 1 ≤ i.natAbs := by
      rcases Int.natAbs_eq i with h | h <;> omega
    obtain ⟨d, ds, heq, hd1, hd10, hds⟩ := natStrAux_canon (i.natAbs + 1) i.natAbs (by omega) h1
    rw [isCanonIntB, if_pos (by rw [List.head?_cons]; decide)]
    rw [List.tail_cons, natStr, heq]
    exact isCanonPosB_of_canon d ds hd1 hd10 hds
  · rw [if_neg hneg]
    obtain ⟨d, ds, heq, hd10⟩ := natStr_head_digit i.toNat
    rw [isCanonIntB, heq]
    rw [if_neg (by
      rw [List.head?_cons, some_digitChar_ne_dash d hd10]
      exact Bool.false_ne_true)]
    rw [← heq]
    exact natStr_canon i.toNat

/-! ## Decomposition of the rendered app-module build file -/

theorem pyReplace_pyStr_underscorePat (i : Int) (pt rep : List Char) :
    pyReplace (pyStr i) ('_' :: pt) rep = pyStr i :=
  pyReplace_noMatch _ _ _ (noMatchB_of_head '_' pt _ (pyStr_no_underscore i))

theorem pyReplace_pyStr_patMin (i : Int) (rep : List Char) :
    pyReplace (pyStr i) patMin rep = pyStr i := by
  have h : patMin = '_' :: "_MIN_SDK__".data := by decide
  rw [h]
  exact pyReplace_pyStr_underscorePat i _ rep

theorem pyReplace_pyStr_patTarget (i : Int) (rep : List Char) :
    pyReplace (pyStr i) patTarget rep = pyStr i := by
  have h : patTarget = '_' :: "_TARGET_SDK__".data := by decide
  rw [h]
  exact pyReplace_pyStr_underscorePat i _ rep

theorem appBuild_pass1 (id : List Char) :
    pyReplace APP_BUILD_GRADLE patAppId id =
      chunkX0 ++ (id ++ (chunkX1a ++ (patCompile ++ (chunkX1b ++ (id ++ (chunkY1a ++ (patMin ++ (chunkY2a ++ (patTarget ++ chunkY3))))))))) := by
  have h0 : APP_BUILD_GRADLE =
      chunkX0 ++ (patAppId ++ (chunkX1a ++ ((patCompile ++ chunkX1b) ++ (patAppId ++ (chunkY1a ++ (patMin ++ (chunkY2a ++ (patTarget ++ chunkY3)))))))) := by
    decide
  rw [h0]
  rw [pyReplace_chunk patAppId id chunkX0 _ (by decide)]
  rw [pyReplace_hit patAppId id _ (by decide)]
  rw [pyReplace_chunk patAppId id chunkX1a _ (by decide)]
  rw [pyReplace_chunk patAppId id (patCompile ++ chunkX1b) _ (by decide)]
  rw [pyReplace_hit patAppId id _ (by decide)]
  rw [pyReplace_noMatch patAppId id (chunkY1a ++ (patMin ++ (chunkY2a ++ (patTarget ++ chunkY3)))) (by decide)]
  simp only [List.append_assoc]

theorem appBuild_pass2 (id : List Char) (cs : Int) :
    pyReplace (chunkX0 ++ (id ++ (chunkX1a ++ (patCompile ++ (chunkX1b ++ (id ++ (chunkY1a ++ (patMin ++ (chunkY2a ++ (patTarget ++ chunkY3))))))))))
        patCompile (pyStr cs) =
      chunkX0 ++ (pyReplace id patCompile (pyStr cs) ++ (chunkX1a ++ (pyStr cs ++
        (chunkX1b ++ (pyReplace id patCompile (pyStr cs) ++ (chunkY1a ++ (patMin ++ (chunkY2a ++ (patTarget ++ chunkY3))))))))) := by
  rw [pyReplace_chunk patCompile (pyStr cs) chunkX0 _ (by decide)]
  rw [pyReplace_comp patCompile (pyStr cs) _ id (by decide)
    (tailsSafe_ext patCompile chunkX1a _ (by decide) (by decide))]
  rw [pyReplace_chunk patCompile (pyStr cs) chunkX1a _ (by decide)]
  rw [pyReplace_hit patCompile (pyStr cs) _ (by decide)]
  rw [pyReplace_chunk patCompile (pyStr cs) chunkX1b _ (by decide)]
  rw [pyReplace_comp patCompile (pyStr cs) _ id (by decide)
    (tailsSafe_ext patCompile chunkY1a _ (by decide) (by decide))]
  rw [pyReplace_noMatch patCompile (pyStr cs) (chunkY1a ++ (patMin ++ (chunkY2a ++ (patTarget ++ chunkY3)))) (by decide)]

theorem appBuild_pass3 (u : List Char) (cs ms : Int) :
    pyReplace (chunkX0 ++ (u ++ (chunkX1a ++ (pyStr cs ++ (chunkX1b ++ (u ++ (chunkY1a ++ (patMin ++ (chunkY2a ++ (patTarget ++ chunkY3))))))))))
        patMin (pyStr ms) =
      chunkX0 ++ (pyReplace u patMin (pyStr ms) ++ (chunkX1a ++ (pyStr cs ++
        (chunkX1b ++ (pyReplace u patMin (pyStr ms) ++ (chunkY1a ++ (pyStr ms ++ (chunkY2a ++ (patTarget ++ chunkY3))))))))) := by
  rw [pyReplace_chunk patMin (pyStr ms) chunkX0 _ (by decide)]
  rw [pyReplace_comp patMin (pyStr ms) _ u (by decide)
    (tailsSafe_ext patMin chunkX1a _ (by decide) (by decide))]
  rw [pyReplace_chunk patMin (pyStr ms) chunkX1a _ (by decide)]
  rw [pyReplace_comp patMin (pyStr ms) _ (pyStr cs) (by decide)
    (tailsSafe_ext patMin chunkX1b _ (by decide) (by decide))]
  rw [pyReplace_pyStr_patMin cs (pyStr ms)]
  rw [pyReplace_chunk patMin (pyStr ms) chunkX1b _ (by decide)]
  rw [pyReplace_comp patMin (pyStr ms) _ u (by decide)
    (tailsSafe_ext patMin chunkY1a _ (by decide) (by decide))]
  rw [pyReplace_chunk patMin (pyStr ms) chunkY1a _ (by decide)]
  rw [pyReplace_hit patMin (pyStr ms) _ (by decide)]
  rw [pyReplace_noMatch patMin (pyStr ms) (chunkY2a ++ (patTarget ++ chunkY3)) (by decide)]

theorem appBuild_pass4 (u : List Char) (cs ms ts : Int) :
    pyReplace (chunkX0 ++ (u ++ (chunkX1a ++ (pyStr cs ++ (chunkX1b ++ (u ++ (chunkY1a ++
        (pyStr ms ++ (chunkY2a ++ (patTarget ++ chunkY3)))))))))) patTarget (pyStr ts) =
      chunkX0 ++ (pyReplace u patTarget (pyStr ts) ++ (chunkX1a ++ (pyStr cs ++
        (chunkX1b ++ (pyReplace u patTarget (pyStr ts) ++ (chunkY1a ++ (pyStr ms ++
        (chunkY2a ++ (pyStr ts ++ chunkY3))))))))) := by
  rw [pyReplace_chunk patTarget (pyStr ts) chunkX0 _ (by decide)]
  rw [pyReplace_comp patTarget (pyStr ts) _ u (by decide)
    (tailsSafe_ext patTarget chunkX1a _ (by decide) (by decide))]
  rw [pyReplace_chunk patTarget (pyStr ts) chunkX1a _ (by decide)]
  rw [pyReplace_comp patTarget (pyStr ts) _ (pyStr cs) (by decide)
    (tailsSafe_ext patTarget chunkX1b _ (by decide) (by decide))]
  rw [pyReplace_pyStr_patTarget cs (pyStr ts)]
  rw [pyReplace_chunk patTarget (pyStr ts) chunkX1b _ (by decide)]
  rw [pyReplace_comp patTarget (pyStr ts) _ u (by decide)
    (tailsSafe_ext patTarget chunkY1a _ (by decide) (by decide))]
  rw [pyReplace_chunk patTarget (pyStr ts) chunkY1a _ (by decide)]
  rw [pyReplace_comp patTarget (pyStr ts) _ (pyStr ms) (by decide)
    (tailsSafe_ext patTarget chunkY2a _ (by decide) (by decide))]
  rw [pyReplace_pyStr_patTarget ms (pyStr ts)]
  rw [pyReplace_chunk patTarget (pyStr ts) chunkY2a _ (by decide)]
  rw [pyReplace_hit patTarget (pyStr ts) _ (by decide)]
  rw [pyReplace_noMatch patTarget (pyStr ts) chunkY3 (by decide)]

/-- Master decomposition of the rendered app-module build file: for every
application id and SDK triple, the replacement chain of lines 175-180 yields
the fixed template chunks with the two application-id placeholder occurrences
resolved to one and the same string (`rId id cs ms ts`) and each SDK
placeholder resolved to `str()` of the corresponding integer. -/
theorem renderAppBuild_decomp (id : List Char) (cs ms ts : Int) :
    renderAppBuild id cs ms ts =
      chunkX0 ++ (rId id cs ms ts ++ (chunkX1a ++ (pyStr cs ++ (chunkX1b ++
        (rId id cs ms ts ++ (chunkY1a ++ (pyStr ms ++ (chunkY2a ++
        (pyStr ts ++ chunkY3))))))))) := by
  show pyReplace (pyReplace (pyReplace (pyReplace APP_BUILD_GRADLE patAppId id)
      patCompile (pyStr cs)) patMin (pyStr ms)) patTarget (pyStr ts) = _
  rw [appBuild_pass1, appBuild_pass2, appBuild_pass3, appBuild_pass4]
  rfl

/-! ## Filesystem lemmas -/

theorem contains_iff_mem {α : Type} [BEq α] [LawfulBEq α] (l : List α) (a : α) :
    l.contains a = true ↔ a ∈ l := by
  simp [List.contains, List.elem_iff]

theorem existsP_iff (fs : FS) (p : PathT) :
    fs.existsP p = true ↔ p ∈ fs.dirs ∨ ∃ e ∈ fs.files, e.1 = p := by
  rw [FS.existsP, Bool.or_eq_true, contains_iff_mem, List.any_eq_true]
  constructor
  · rintro (h | ⟨e, he, hb⟩)
    · exact Or.inl h
    · exact Or.inr ⟨e, he, by rwa [beq_iff_eq] at hb⟩
  · rintro (h | ⟨e, he, hb⟩)
    · exact Or.inl h
    · exact Or.inr ⟨e, he, by rwa [beq_iff_eq]⟩

theorem existsP_write_mono (fs : FS) (p q : PathT) (c : List Char)
    (h : fs.existsP p = true) : (write_text q c fs).existsP p = true := by
  rw [existsP_iff] at h ⊢
  rcases h with h | ⟨e, he, hb⟩
  · exact Or.inl (List.mem_append.mpr (Or.inr h))
  · exact Or.inr ⟨e, List.mem_cons.mpr (Or.inr he), hb⟩

theorem existsP_mkdir_mono (fs : FS) (p q : PathT)
    (h : fs.existsP p = true) : (mkdirParents q fs).existsP p = true := by
  rw [existsP_iff] at h ⊢
  rcases h with h | h
  · exact Or.inl (List.mem_append.mpr (Or.inr h))
  · exact Or.inr h

theorem self_mem_prefixesOf (p : PathT) : p ∈ prefixesOf p := by
  rw [prefixesOf, List.mem_map]
  exact ⟨p.length, List.mem_range.mpr (by omega), List.take_length p⟩

theorem existsP_write_parent (fs : FS) (root : PathT) (x : List Char) (c : List Char) :
    (write_text (root ++ [x]) c fs).existsP root = true := by
  rw [existsP_iff]
  left
  rw [write_text]
  exact List.mem_append.mpr (Or.inl (by rw [List.dropLast_concat]; exact self_mem_prefixesOf root))

theorem read_write_self (p : PathT) (c : List Char) (fs : FS) :
    (write_text p c fs).read p = some c := by
  show lookupF ((p, c) :: fs.files) p = some c
  rw [lookupF, if_pos (beq_self_eq_true p)]

theorem read_write_ne (p q : PathT) (c : List Char) (fs : FS) (h : q ≠ p) :
    (write_text q c fs).read p = fs.read p := by
  show lookupF ((q, c) :: fs.files) p = lookupF fs.files p
  rw [lookupF, if_neg (by rw [beq_eq_false_iff_ne.mpr h]; exact Bool.false_ne_true)]

theorem read_mkdir (d p : PathT) (fs : FS) : (mkdirParents d fs).read p = fs.read p := rfl

theorem append_ne_of_suffix_ne (r : PathT) (s1 s2 : List (List Char)) (h : s1 ≠ s2) :
    r ++ s1 ≠ r ++ s2 :=
  fun he => h (List.append_cancel_left he)

theorem stub_suffix_ne_appBuild (segs : PathT) :
    "app".data :: "src".data :: "main".data :: "java".data :: (segs ++ ["MainActivity.kt".data]) ≠
      ["app".data, "build.gradle.kts".data] := by
  intro h
  injection h with h1 h2
  injection h2 with h3 h4
  exact absurd h3 (by decide)

theorem mainActivityPath_ne_appBuild (a : ProjectArgs) :
    mainActivityPath a ≠ rootOf a ++ ["app".data, "build.gradle.kts".data] := by
  rw [mainActivityPath]
  simp only [List.append_assoc, List.cons_append, List.nil_append]
  intro h
  exact stub_suffix_ne_appBuild (appIdSegs a.application_id) (List.append_cancel_left h)

/-! ## Shape lemmas for `create_project` -/

theorem create_project_exists (a : ProjectArgs) (fs : FS)
    (h : fs.existsP (rootOf a) = true) :
    create_project a fs = (fs, .error .fileExists) := by
  simp only [create_project]
  rw [if_pos h]

theorem create_project_ok_none (a : ProjectArgs) (fs : FS)
    (hroot : fs.existsP (rootOf a) = false) (hs : a.source_file = none) :
    create_project a fs =
      (write_text (mainActivityPath a) (renderMainActivity a.application_id)
        (write_text (rootOf a ++ ["app".data, "src".data, "main".data, "res".data, "values".data, "strings.xml".data]) (renderStrings a.app_name)
        (write_text (rootOf a ++ ["app".data, "src".data, "main".data, "AndroidManifest.xml".data]) ANDROID_MANIFEST
        (write_text (rootOf a ++ ["app".data, "proguard-rules.pro".data]) []
        (write_text (rootOf a ++ ["app".data, "build.gradle.kts".data]) (renderAppBuild a.application_id a.compile_sdk a.min_sdk a.target_sdk)
        (write_text (rootOf a ++ ["gradle.properties".data]) GRADLE_PROPERTIES
        (write_text (rootOf a ++ ["build.gradle.kts".data]) ROOT_BUILD_GRADLE
        (write_text (rootOf a ++ ["settings.gradle.kts".data]) (renderSettings a.project_name) fs))))))),
       .ok (rootOf a)) := by
  simp only [create_project, hs]
  rw [if_neg (by rw [hroot]; exact Bool.false_ne_true)]

theorem create_root_exists (a : ProjectArgs) (fs : FS)
    (hroot : fs.existsP (rootOf a) = false) :
    ((create_project a fs).1).existsP (rootOf a) = true := by
  cases hs : a.source_file with
  | none =>
    rw [create_project_ok_none a fs hroot hs]
    exact existsP_write_mono _ _ _ _ (existsP_write_mono _ _ _ _ (existsP_write_mono _ _ _ _
      (existsP_write_mono _ _ _ _ (existsP_write_mono _ _ _ _ (existsP_write_mono _ _ _ _
      (existsP_write_mono _ _ _ _ (existsP_write_parent fs (rootOf a) _ _)))))))
  | some src =>
    simp only [create_project, hs]
    rw [if_neg (by rw [hroot]; exact Bool.false_ne_true)]
    split
    · exact existsP_write_mono _ _ _ _ (existsP_mkdir_mono _ _ _ (existsP_write_mono _ _ _ _
        (existsP_write_mono _ _ _ _ (existsP_write_mono _ _ _ _ (existsP_write_mono _ _ _ _
        (existsP_write_mono _ _ _ _ (existsP_write_mono _ _ _ _
        (existsP_write_parent fs (rootOf a) _ _))))))))
    · exact existsP_mkdir_mono _ _ _ (existsP_write_mono _ _ _ _
        (existsP_write_mono _ _ _ _ (existsP_write_mono _ _ _ _ (existsP_write_mono _ _ _ _
        (existsP_write_mono _ _ _ _ (existsP_write_mono _ _ _ _
        (existsP_write_parent fs (rootOf a) _ _)))))))

theorem create_read_appBuild (a : ProjectArgs) (fs : FS)
    (hroot : fs.existsP (rootOf a) = false) :
    ((create_project a fs).1).read (rootOf a ++ ["app".data, "build.gradle.kts".data]) =
      some (renderAppBuild a.application_id a.compile_sdk a.min_sdk a.target_sdk) := by
  cases hs : a.source_file with
  | none =>
    rw [create_project_ok_none a fs hroot hs]
    show FS.read _ _ = _
    rw [read_write_ne _ _ _ _ (mainActivityPath_ne_appBuild a)]
    rw [read_write_ne _ _ _ _ (append_ne_of_suffix_ne _ _ _ (by decide))]
    rw [read_write_ne _ _ _ _ (append_ne_of_suffix_ne _ _ _ (by decide))]
    rw [read_write_ne _ _ _ _ (append_ne_of_suffix_ne _ _ _ (by decide))]
    exact read_write_self _ _ _
  | some src =>
    simp only [create_project, hs]
    rw [if_neg (by rw [hroot]; exact Bool.false_ne_true)]
    split
    · show FS.read _ _ = _
      rw [read_write_ne _ _ _ _ (mainActivityPath_ne_appBuild a)]
      rw [read_mkdir]
      rw [read_write_ne _ _ _ _ (append_ne_of_suffix_ne _ _ _ (by decide))]
      rw [read_write_ne _ _ _ _ (append_ne_of_suffix_ne _ _ _ (by decide))]
      rw [read_write_ne _ _ _ _ (append_ne_of_suffix_ne _ _ _ (by decide))]
      exact read_write_self _ _ _
    · show FS.read _ _ = _
      rw [read_mkdir]
      rw [read_write_ne _ _ _ _ (append_ne_of_suffix_ne _ _ _ (by decide))]
      rw [read_write_ne _ _ _ _ (append_ne_of_suffix_ne _ _ _ (by decide))]
      rw [read_write_ne _ _ _ _ (append_ne_of_suffix_ne _ _ _ (by decide))]
      exact read_write_self _ _ _

theorem create_read_stub_none (a : ProjectArgs) (fs : FS)
    (hroot : fs.existsP (rootOf a) = false) (hs : a.source_file = none) :
    ((create_project a fs).1).read (mainActivityPath a) =
      some (renderMainActivity a.application_id) := by
  rw [create_project_ok_none a fs hroot hs]
  exact read_write_self _ _ _

theorem create_some_shape (a : ProjectArgs) (fs : FS) (src : PathT) (content : List Char)
    (hroot : fs.existsP (rootOf a) = false) (hs : a.source_file = some src)
    (hpre : ¬ rootOf a <+: src) (hread : fs.read src = some content) :
    (create_project a fs).2 = .ok (rootOf a) ∧
    ((create_project a fs).1).read (mainActivityPath a) = some content ∧
    (create_project a fs).1.files =
      (mainActivityPath a, content) ::
        ((rootOf a ++ ["app".data, "src".data, "main".data, "res".data, "values".data, "strings.xml".data], renderStrings a.app_name) ::
         (rootOf a ++ ["app".data, "src".data, "main".data, "AndroidManifest.xml".data], ANDROID_MANIFEST) ::
         (rootOf a ++ ["app".data, "proguard-rules.pro".data], ([] : List Char)) ::
         (rootOf a ++ ["app".data, "build.gradle.kts".data], renderAppBuild a.application_id a.compile_sdk a.min_sdk a.target_sdk) ::
         (rootOf a ++ ["gradle.properties".data], GRADLE_PROPERTIES) ::
         (rootOf a ++ ["build.gradle.kts".data], ROOT_BUILD_GRADLE) ::
         (rootOf a ++ ["settings.gradle.kts".data], renderSettings a.project_name) :: fs.files) := by
  have hnp : ∀ X : List (List Char), rootOf a ++ X ≠ src := fun X he => hpre ⟨X, he⟩
  simp only [create_project, hs]
  rw [if_neg (by rw [hroot]; exact Bool.false_ne_true)]
  split
  next c heq =>
    rw [read_mkdir] at heq
    rw [read_write_ne _ _ _ _ (hnp _)] at heq
    rw [read_write_ne _ _ _ _ (hnp _)] at heq
    rw [read_write_ne _ _ _ _ (hnp _)] at heq
    rw [read_write_ne _ _ _ _ (hnp _)] at heq
    rw [read_write_ne _ _ _ _ (hnp _)] at heq
    rw [read_write_ne _ _ _ _ (hnp _)] at heq
    rw [read_write_ne _ _ _ _ (hnp _)] at heq
    rw [hread] at heq
    injection heq with hc
    refine ⟨rfl, ?_, ?_⟩
    · rw [hc]
      exact read_write_self _ _ _
    · rw [hc]
      rfl
  next heq =>
    rw [read_mkdir] at heq
    rw [read_write_ne _ _ _ _ (hnp _)] at heq
    rw [read_write_ne _ _ _ _ (hnp _)] at heq
    rw [read_write_ne _ _ _ _ (hnp _)] at heq
    rw [read_write_ne _ _ _ _ (hnp _)] at heq
    rw [read_write_ne _ _ _ _ (hnp _)] at heq
    rw [read_write_ne _ _ _ _ (hnp _)] at heq
    rw [read_write_ne _ _ _ _ (hnp _)] at heq
    rw [hread] at heq
    cases heq

theorem create_files_none (a : ProjectArgs) (fs : FS)
    (hroot : fs.existsP (rootOf a) = false) (hs : a.source_file = none) :
    (create_project a fs).1.files =
      [(mainActivityPath a, renderMainActivity a.application_id),
       (rootOf a ++ ["app".data, "src".data, "main".data, "res".data, "values".data, "strings.xml".data], renderStrings a.app_name),
       (rootOf a ++ ["app".data, "src".data, "main".data, "AndroidManifest.xml".data], ANDROID_MANIFEST),
       (rootOf a ++ ["app".data, "proguard-rules.pro".data], ([] : List Char)),
       (rootOf a ++ ["app".data, "build.gradle.kts".data], renderAppBuild a.application_id a.compile_sdk a.min_sdk a.target_sdk),
       (rootOf a ++ ["gradle.properties".data], GRADLE_PROPERTIES),
       (rootOf a ++ ["build.gradle.kts".data], ROOT_BUILD_GRADLE),
       (rootOf a ++ ["settings.gradle.kts".data], renderSettings a.project_name)] ++ fs.files := by
  rw [create_project_ok_none a fs hroot hs]
  rfl

/-! ## Sanitizer lemmas -/

theorem allowed_not_space (c : Char) (h : isAllowedNameChar c = true) : pyIsSpace c = false := by
  have hne : ∀ x : Char, pyIsSpace x = true → isAllowedNameChar x = false := by
    intro x hx
    rw [pyIsSpace] at hx
    simp only [Bool.or_eq_true, beq_iff_eq] at hx
    have hor : x = ' ' ∨ x = '\t' ∨ x = '\n' ∨ x = '\x0d' ∨ x = '\x0b' ∨ x = '\x0c' := by
      tauto
    rcases hor with h1 | h1 | h1 | h1 | h1 | h1 <;> (subst h1; decide)
  cases hy : pyIsSpace c with
  | false => rfl
  | true => rw [hne c hy] at h; cases h

theorem dropWhile_eq_self_of_false (p : Char → Bool) (t : List Char)
    (h : ∀ c ∈ t, p c = false) : t.dropWhile p = t := by
  cases t with
  | nil => rfl
  | cons c cs =>
    rw [List.dropWhile_cons, if_neg (by rw [h c (by simp)]; exact Bool.false_ne_true)]

theorem pyStrip_eq_self (t : List Char) (h : ∀ c ∈ t, pyIsSpace c = false) :
    pyStrip t = t := by
  rw [pyStrip, dropWhile_eq_self_of_false _ _ h,
    dropWhile_eq_self_of_false _ _ (fun c hc => h c (List.mem_reverse.mp hc)),
    List.reverse_reverse]

theorem safe_name_of_cleaned_nil (s f : List Char)
    (h : (pyStrip s).filter isAllowedNameChar = []) : safe_name s f = f := by
  simp only [safe_name]
  rw [h]
  rfl

theorem safe_name_of_cleaned_ne (s f : List Char)
    (h : (pyStrip s).filter isAllowedNameChar ≠ []) :
    safe_name s f = (pyStrip s).filter isAllowedNameChar := by
  simp only [safe_name]
  rw [if_neg (by rw [List.isEmpty_eq_false.mpr h]; exact Bool.false_ne_true)]

theorem filter_all_allowed (l : List Char) :
    (l.filter isAllowedNameChar).all isAllowedNameChar = true := by
  rw [List.all_eq_true]
  intro c hc
  exact (List.mem_filter.mp hc).2

theorem safe_name_fixed (t f : List Char) (hne : t ≠ [])
    (hall : t.all isAllowedNameChar = true) : safe_name t f = t := by
  have h1 : ∀ c ∈ t, isAllowedNameChar c = true := List.all_eq_true.mp hall
  have hstrip : pyStrip t = t := pyStrip_eq_self t (fun c hc => allowed_not_space c (h1 c hc))
  have hfilt : t.filter isAllowedNameChar = t := List.filter_eq_self.mpr h1
  have h2 : (pyStrip t).filter isAllowedNameChar = t := by rw [hstrip, hfilt]
  rw [safe_name_of_cleaned_ne t f (by rw [h2]; exact hne), h2]

/-! ## Claim theorems -/

/-- C1: if the project root path (`output_dir` joined with the project name)
already exists when `create_project` is called, the call fails with the
`FileExistsError` and the filesystem is returned exactly as it was — no file
is written; and a second call with identical parameters after a successful
first call fails in exactly that way, leaving the filesystem produced by the
first call untouched. -/
theorem c1_already_exists_no_write (a : ProjectArgs) (fs : FS) :
    (fs.existsP (rootOf a) = true → create_project a fs = (fs, .error .fileExists)) ∧
    (∀ root : PathT, (create_project a fs).2 = .ok root →
      create_project a ((create_project a fs).1) =
        ((create_project a fs).1, .error .fileExists)) := by
  constructor
  · exact create_project_exists a fs
  · intro root h2
    cases hex : fs.existsP (rootOf a) with
    | true =>
      rw [create_project_exists a fs hex] at h2
      simp at h2
    | false =>
      exact create_project_exists a _ (create_root_exists a fs hex)

/-- Witness for C1: a root that already exists is rejected with the
filesystem unchanged, and re-running a successful creation fails. -/
theorem c1_witness :
    create_project aBase { dirs := [rootOf aBase], files := [] } =
      ({ dirs := [rootOf aBase], files := [] }, .error .fileExists) ∧
    create_project aBase ((create_project aBase fsEmpty).1) =
      ((create_project aBase fsEmpty).1, .error .fileExists) :=
  ⟨(c1_already_exists_no_write aBase ⟨[rootOf aBase], []⟩).1 (by decide),
   (c1_already_exists_no_write aBase fsEmpty).2 (rootOf aBase) rfl⟩

/-- C3 counterexample: the claim quantifies over every fallback string, but
`safe_name "!" "!"` returns `"!"`, which contains a character outside
`[A-Za-z0-9_-]` — the "result contains only such characters" clause fails
for fallbacks that contain other characters. -/
theorem c3_counterexample :
    safe_name ['!'] ['!'] = ['!'] ∧ isAllowedNameChar '!' = false := by decide

/-- C3 (amended): `safe_name` trims whitespace, deletes every character
outside `[A-Za-z0-9_-]`, returns the fallback unchanged when nothing is
left, and maps `"My App!!"` to `"MyApp"`; the result consists only of
characters from that set whenever the deletion result is nonempty — and
hence for every fallback that itself uses only those characters.  The
operation is a total function. -/
theorem c3_sanitizer_amended (s f : List Char) :
    ((pyStrip s).filter isAllowedNameChar ≠ [] →
      safe_name s f = (pyStrip s).filter isAllowedNameChar ∧
      (safe_name s f).all isAllowedNameChar = true) ∧
    ((pyStrip s).filter isAllowedNameChar = [] → safe_name s f = f) ∧
    (f.all isAllowedNameChar = true → (safe_name s f).all isAllowedNameChar = true) ∧
    safe_name "My App!!".data f = "MyApp".data := by
  refine ⟨?_, safe_name_of_cleaned_nil s f, ?_, ?_⟩
  · intro h
    refine ⟨safe_name_of_cleaned_ne s f h, ?_⟩
    rw [safe_name_of_cleaned_ne s f h]
    exact filter_all_allowed _
  · intro hf
    by_cases h : (pyStrip s).filter isAllowedNameChar = []
    · rw [safe_name_of_cleaned_nil s f h]
      exact hf
    · rw [safe_name_of_cleaned_ne s f h]
      exact filter_all_allowed _
  · have hconc : (pyStrip "My App!!".data).filter isAllowedNameChar = "MyApp".data := by
      decide
    rw [safe_name_of_cleaned_ne _ f (by rw [hconc]; decide), hconc]

/-- Witness for C3 (amended) at concrete inputs. -/
theorem c3_witness :
    safe_name "My App!!".data "fb".data = "MyApp".data ∧
    safe_name "!!!".data "fb".data = "fb".data :=
  ⟨(c3_sanitizer_amended "My App!!".data "fb".data).2.2.2,
   (c3_sanitizer_amended "!!!".data "fb".data).2.1 (by decide)⟩

/-- C10: for every fallback that is nonempty and consists only of characters
from `[A-Za-z0-9_-]`, the sanitizer is idempotent. -/
theorem c10_sanitizer_idempotent (s f : List Char) (hf1 : f ≠ [])
    (hf2 : f.all isAllowedNameChar = true) :
    safe_name (safe_name s f) f = safe_name s f := by
  by_cases h : (pyStrip s).filter isAllowedNameChar = []
  · rw [safe_name_of_cleaned_nil s f h]
    exact safe_name_fixed f f hf1 hf2
  · rw [safe_name_of_cleaned_ne s f h]
    exact safe_name_fixed _ f h (filter_all_allowed _)

/-- Witness for C10 at concrete inputs. -/
theorem c10_witness :
    safe_name (safe_name "My App!!".data "fb".data) "fb".data =
      safe_name "My App!!".data "fb".data :=
  c10_sanitizer_idempotent "My App!!".data "fb".data (by decide) (by decide)

/-- C4 counterexample: with the wrapper absent and a system `gradle` that is
installed but exits nonzero from `gradle wrapper`, the process exit code is
the bootstrap's own return code (here 1) reported through the
`CalledProcessError` handler — not 4, and not distinguishable from a failed
build — contradicting the claim that a nonzero bootstrap exit also yields
`BuildToolMissing` (exit code 4). -/
theorem c4_counterexample :
    buildPhase envExitOne fsEmpty ["dist".data] false = (1, [gradleWrapperCmd]) ∧
    (1 : Int) ≠ 4 := by
  constructor
  · rfl
  · decide

/-- C4 (amended): when the wrapper executable is absent at the root and the
bootstrap `gradle wrapper` invocation fails, the failure propagates
immediately and the `assembleDebug` step is never attempted — the only
command run is `gradle wrapper`.  If the tool is not installed
(`FileNotFoundError`), the exit code is 4 ("build tool not found"); if the
tool runs but exits nonzero, the `CalledProcessError` handler reports the
bootstrap's own return code, the same way a failed build is reported. -/
theorem c4_bootstrap_failure (env : BuildEnv) (fs : FS) (project_root : PathT) (offline : Bool)
    (habsent : fs.existsP (project_root ++ [gradlewName env]) = false) :
    (env.proc gradleWrapperCmd project_root = .notFound →
      buildPhase env fs project_root offline = (4, [gradleWrapperCmd])) ∧
    (∀ c : Int, env.proc gradleWrapperCmd project_root = .exit c → c ≠ 0 →
      buildPhase env fs project_root offline = (c, [gradleWrapperCmd])) := by
  constructor
  · intro hp
    simp only [buildPhase, run_gradle_build]
    rw [if_neg (by rw [habsent]; exact Bool.false_ne_true), hp]
  · intro c hp hc
    have hbc : (c == 0) = false := beq_eq_false_iff_ne.mpr hc
    simp only [buildPhase, run_gradle_build]
    rw [if_neg (by rw [habsent]; exact Bool.false_ne_true), hp]
    dsimp only
    rw [if_neg (by rw [hbc]; exact Bool.false_ne_true)]
    dsimp only
    rw [if_neg (by rw [hbc]; exact Bool.false_ne_true)]

/-- Witness for C4 (amended): both failure modes at concrete inputs. -/
theorem c4_witness :
    buildPhase envNotFound fsEmpty ["dist".data] false = (4, [gradleWrapperCmd]) ∧
    buildPhase envExitOne fsEmpty ["dist".data] true = (3 - 2, [gradleWrapperCmd]) :=
  ⟨(c4_bootstrap_failure envNotFound fsEmpty ["dist".data] false (by decide)).1 rfl,
   (c4_bootstrap_failure envExitOne fsEmpty ["dist".data] true (by decide)).2 (3 - 2) rfl
     (by decide)⟩

/-- C8: when `--source` names a path that does not exist, `main` returns exit
code 2 before anything is written (the filesystem is returned unchanged) and
before any subprocess is invoked. -/
theorem c8_missing_source (args : Args) (env : BuildEnv) (fs : FS) (p : PathT)
    (hs : args.source = some p) (hex : fs.existsP p = false) :
    mainRun args env fs = (2, fs, []) := by
  simp only [mainRun, hs]
  rw [if_neg (by rw [hex]; exact Bool.false_ne_true)]

/-- Witness for C8 at concrete inputs. -/
theorem c8_witness : mainRun argsMissingSrc envNotFound fsEmpty = (2, fsEmpty, []) :=
  c8_missing_source argsMissingSrc envNotFound fsEmpty ["missing.kt".data] rfl rfl

theorem occursB_spine0 (sub A B rest : List Char) (h : occursB sub (A ++ B) = true) :
    occursB sub (A ++ (B ++ rest)) = true := by
  have he : A ++ (B ++ rest) = (A ++ B) ++ rest := (List.append_assoc _ _ _).symm
  rw [he]
  exact occursB_append_left _ _ _ h

theorem occursB_spine1 (sub A B C rest : List Char) (h : occursB sub (A ++ (B ++ C)) = true) :
    occursB sub (A ++ (B ++ (C ++ rest))) = true := by
  have he : A ++ (B ++ (C ++ rest)) = (A ++ (B ++ C)) ++ rest := by
    simp [List.append_assoc]
  rw [he]
  exact occursB_append_left _ _ _ h

/-- C6: when the caller supplies an existing source file, `create_project`
writes an exact byte-for-byte copy of that file's contents at the computed
stub path — no template substitution, whatever the bytes are — and the
built-in stub template is not rendered; when no source file is supplied, the
built-in stub template is rendered at that path instead. -/
theorem c6_stub_copy_or_render (a : ProjectArgs) (fs : FS)
    (hroot : fs.existsP (rootOf a) = false) :
    (∀ src content, a.source_file = some src → ¬ rootOf a <+: src →
      fs.read src = some content →
      (create_project a fs).2 = .ok (rootOf a) ∧
      ((create_project a fs).1).read (mainActivityPath a) = some content) ∧
    (a.source_file = none →
      (create_project a fs).2 = .ok (rootOf a) ∧
      ((create_project a fs).1).read (mainActivityPath a) =
        some (renderMainActivity a.application_id)) := by
  constructor
  · intro src content hs hpre hread
    have h := create_some_shape a fs src content hroot hs hpre hread
    exact ⟨h.1, h.2.1⟩
  · intro hs
    constructor
    · rw [create_project_ok_none a fs hroot hs]
    · exact create_read_stub_none a fs hroot hs

/-- Witness for C6: the copied stub is byte-for-byte the caller's file (here
text that is not even Kotlin), not the rendered template. -/
theorem c6_witness :
    (create_project aSrc fsSrc).2 = .ok (rootOf aSrc) ∧
    ((create_project aSrc fsSrc).1).read (mainActivityPath aSrc) =
      some "this is not kotlin".data :=
  (c6_stub_copy_or_render aSrc fsSrc (by decide)).1 ["src.kt".data]
    "this is not kotlin".data rfl (by decide) rfl

/-- C5 counterexample: with application id `"com..app"` (an empty segment),
`create_project` does not surface a filesystem error at write time; the
empty segment is silently dropped when `Path(*application_id.split("."))` is
built, the call succeeds, and the stub is written at the collapsed path
`.../java/com/app/MainActivity.kt`. -/
theorem c5_counterexample :
    (create_project aDots fsEmpty).2 = .ok (rootOf aDots) ∧
    appIdSegs "com..app".data = ["com".data, "app".data] ∧
    mainActivityPath aDots =
      ["dist".data, "Proj".data, "app".data, "src".data, "main".data, "java".data,
       "com".data, "app".data, "MainActivity.kt".data] ∧
    ((create_project aDots fsEmpty).1).read (mainActivityPath aDots) =
      some (renderMainActivity "com..app".data) := by
  refine ⟨rfl, by decide, by decide, ?_⟩
  exact create_read_stub_none aDots fsEmpty (by decide) rfl

theorem parseRelComp_nil : parseRelComp [] = [] := rfl

theorem sep_not_mem_splitOnChar (sep : Char) :
    ∀ s t, t ∈ splitOnChar sep s → sep ∉ t := by
  intro s
  induction s with
  | nil =>
    intro t ht
    simp [splitOnChar] at ht
    subst ht
    simp
  | cons c cs ih =>
    intro t ht
    rw [splitOnChar] at ht
    by_cases h : (c == sep) = true
    · rw [if_pos h] at ht
      rcases List.mem_cons.mp ht with h1 | h1
      · subst h1; simp
      · exact ih t h1
    · rw [if_neg h] at ht
      cases hs : splitOnChar sep cs with
      | nil =>
        rw [hs] at ht
        simp at ht
        subst ht
        simp only [List.mem_singleton]
        intro he
        subst he
        exact h (beq_self_eq_true sep)
      | cons t' ts =>
        rw [hs] at ht
        rcases List.mem_cons.mp ht with h1 | h1
        · subst h1
          intro hmem
          rcases List.mem_cons.mp hmem with h2 | h2
          · subst h2
            exact h (beq_self_eq_true sep)
          · exact ih t' (by rw [hs]; exact List.mem_cons_self _ _) h2
        · exact ih t (by rw [hs]; exact List.mem_cons.mpr (Or.inr h1))

theorem mem_of_mem_splitOnChar (sep : Char) :
    ∀ s t c, t ∈ splitOnChar sep s → c ∈ t → c ∈ s := by
  intro s
  induction s with
  | nil =>
    intro t c ht hc
    simp [splitOnChar] at ht
    subst ht
    simp at hc
  | cons d cs ih =>
    intro t c ht hc
    rw [splitOnChar] at ht
    by_cases h : (d == sep) = true
    · rw [if_pos h] at ht
      rcases List.mem_cons.mp ht with h1 | h1
      · subst h1; simp at hc
      · exact List.mem_cons.mpr (Or.inr (ih t c h1 hc))
    · rw [if_neg h] at ht
      cases hs : splitOnChar sep cs with
      | nil =>
        rw [hs] at ht
        simp at ht
        subst ht
        simp at hc
        subst hc
        exact List.mem_cons_self _ _
      | cons t' ts =>
        rw [hs] at ht
        rcases List.mem_cons.mp ht with h1 | h1
        · subst h1
          rcases List.mem_cons.mp hc with h2 | h2
          · subst h2
            exact List.mem_cons_self _ _
          · exact List.mem_cons.mpr
              (Or.inr (ih t' c (by rw [hs]; exact List.mem_cons_self _ _) h2))
        · exact List.mem_cons.mpr
            (Or.inr (ih t c (by rw [hs]; exact List.mem_cons.mpr (Or.inr h1)) hc))

theorem splitOnChar_no_sep (sep : Char) :
    ∀ s, sep ∉ s → splitOnChar sep s = [s] := by
  intro s
  induction s with
  | nil => intro _; rfl
  | cons c cs ih =>
    intro h
    have hc : (c == sep) = false := by
      rw [beq_eq_false_iff_ne]
      intro he
      subst he
      exact h (List.mem_cons_self _ _)
    rw [splitOnChar, if_neg (by rw [hc]; exact Bool.false_ne_true)]
    rw [ih (fun hm => h (List.mem_cons.mpr (Or.inr hm)))]

theorem parseRelComp_plain (t : List Char) (hne : t ≠ []) (hs : '/' ∉ t) (hd : t ≠ ['.']) :
    parseRelComp t = [t] := by
  rw [parseRelComp, splitOnChar_no_sep '/' t hs]
  have hcond : (fun u : List Char => !(u.isEmpty || u == ['.'])) t = true := by
    show (!(t.isEmpty || t == ['.'])) = true
    rw [List.isEmpty_eq_false.mpr hne, beq_eq_false_iff_ne.mpr hd]
    rfl
  rw [@List.filter_cons_of_pos (List Char) (fun u => !(u.isEmpty || u == ['.'])) t [] hcond]
  rfl

theorem flatten_parseRelComp_filter (l : List (List Char)) :
    (l.map parseRelComp).flatten =
      ((l.filter (fun t => !t.isEmpty)).map parseRelComp).flatten := by
  induction l with
  | nil => rfl
  | cons t ts ih =>
    cases t with
    | nil =>
      rw [List.filter_cons_of_neg (by decide)]
      rw [List.map_cons, List.flatten_cons, parseRelComp_nil, List.nil_append]
      exact ih
    | cons c cs =>
      rw [List.filter_cons_of_pos (by rfl)]
      rw [List.map_cons, List.map_cons, List.flatten_cons, List.flatten_cons, ih]

theorem flatten_map_singleton (l : List (List Char)) :
    (l.map (fun t => [t])).flatten = l := by
  induction l with
  | nil => rfl
  | cons t ts ih =>
    rw [List.map_cons, List.flatten_cons, ih]
    rfl

theorem appIdSegs_drops_empty (id : List Char) :
    appIdSegs id =
      (((splitOnChar '.' id).filter (fun t => !t.isEmpty)).map parseRelComp).flatten := by
  rw [appIdSegs]
  exact flatten_parseRelComp_filter _

theorem appIdSegs_plain (id : List Char) (h : '/' ∉ id) :
    appIdSegs id = (splitOnChar '.' id).filter (fun t => !t.isEmpty) := by
  rw [appIdSegs_drops_empty]
  have hmap : ((splitOnChar '.' id).filter (fun t => !t.isEmpty)).map parseRelComp =
      ((splitOnChar '.' id).filter (fun t => !t.isEmpty)).map (fun t => [t]) := by
    apply List.map_congr_left
    intro t ht
    have ht1 := List.mem_filter.mp ht
    have hne : t ≠ [] := by
      intro he
      rw [he] at ht1
      simp at ht1
    have hsep : '.' ∉ t := sep_not_mem_splitOnChar '.' id t ht1.1
    have hslash : '/' ∉ t := fun hm => h (mem_of_mem_splitOnChar '.' id t '/' ht1.1 hm)
    have hdot : t ≠ ['.'] := by
      intro he
      rw [he] at hsep
      exact hsep (List.mem_cons_self _ _)
    exact parseRelComp_plain t hne hslash hdot
  rw [hmap, flatten_map_singleton]

/-- C5 (amended): for every application id, the Layout Planner does not
validate or correct the id, and the empty segments produced by leading,
trailing or consecutive dots are silently dropped when the stub path is
constructed (`pathlib` discards empty path components): only the nonempty
segments contribute to the computed stub directory, and `create_project`
succeeds and writes the stub at that collapsed path rather than surfacing a
filesystem error at write time. -/
theorem c5_empty_segments_collapsed :
    (∀ id : List Char,
      appIdSegs id =
        (((splitOnChar '.' id).filter (fun t => !t.isEmpty)).map parseRelComp).flatten) ∧
    (∀ id : List Char, '/' ∉ id →
      appIdSegs id = (splitOnChar '.' id).filter (fun t => !t.isEmpty)) ∧
    (∀ a : ProjectArgs, '/' ∉ a.application_id →
      mainActivityPath a =
        rootOf a ++ (["app".data, "src".data, "main".data, "java".data] ++
          ((splitOnChar '.' a.application_id).filter (fun t => !t.isEmpty) ++
            ["MainActivity.kt".data]))) ∧
    (∀ (a : ProjectArgs) (fs : FS), fs.existsP (rootOf a) = false →
      (a.source_file = none →
        (create_project a fs).2 = .ok (rootOf a) ∧
        ((create_project a fs).1).read (mainActivityPath a) =
          some (renderMainActivity a.application_id)) ∧
      (∀ src content, a.source_file = some src → ¬ rootOf a <+: src →
        fs.read src = some content →
        (create_project a fs).2 = .ok (rootOf a) ∧
        ((create_project a fs).1).read (mainActivityPath a) = some content)) := by
  refine ⟨appIdSegs_drops_empty, appIdSegs_plain, ?_, ?_⟩
  · intro a h
    rw [mainActivityPath, appIdSegs_plain a.application_id h]
    simp [List.append_assoc]
  · intro a fs hroot
    constructor
    · intro hs
      refine ⟨?_, create_read_stub_none a fs hroot hs⟩
      rw [create_project_ok_none a fs hroot hs]
    · intro src content hs hpre hread
      have h := create_some_shape a fs src content hroot hs hpre hread
      exact ⟨h.1, h.2.1⟩

/-- Witness for C5 (amended) at a concrete id with a consecutive-dot empty
segment: the segment is dropped and creation succeeds at the collapsed
path. -/
theorem c5_witness :
    appIdSegs "com..app".data =
      (splitOnChar '.' "com..app".data).filter (fun t => !t.isEmpty) ∧
    mainActivityPath aDots =
      rootOf aDots ++ (["app".data, "src".data, "main".data, "java".data] ++
        ((splitOnChar '.' aDots.application_id).filter (fun t => !t.isEmpty) ++
          ["MainActivity.kt".data])) ∧
    (create_project aDots fsEmpty).2 = .ok (rootOf aDots) ∧
    ((create_project aDots fsEmpty).1).read (mainActivityPath aDots) =
      some (renderMainActivity aDots.application_id) :=
  ⟨c5_empty_segments_collapsed.2.1 "com..app".data (by decide),
   c5_empty_segments_collapsed.2.2.1 aDots (by decide),
   (c5_empty_segments_collapsed.2.2.2 aDots fsEmpty (by decide)).1 rfl⟩

/-- C2: with `application_id = "com.example.app"` and no external source
file, the rendered app-module build file decomposes into the fixed template
chunks with both application-id placeholder occurrences resolved to the very
same string `"com.example.app"` (so it contains the literals
`namespace = "com.example.app"` and `applicationId = "com.example.app"`),
the stub is written at a path whose directory ends `com/example/app` with
filename `MainActivity.kt`, and the rendered stub begins with the package
declaration `package com.example.app`. -/
theorem c2_placeholder_consistency (a : ProjectArgs) (fs : FS)
    (hid : a.application_id = "com.example.app".data) (hs : a.source_file = none)
    (hroot : fs.existsP (rootOf a) = false) :
    ∃ abg, ((create_project a fs).1).read (rootOf a ++ ["app".data, "build.gradle.kts".data]) = some abg ∧
      abg = chunkX0 ++ ("com.example.app".data ++ (chunkX1a ++ (pyStr a.compile_sdk ++ (chunkX1b ++
        ("com.example.app".data ++ (chunkY1a ++ (pyStr a.min_sdk ++ (chunkY2a ++
        (pyStr a.target_sdk ++ chunkY3))))))))) ∧
      occursB "namespace = \"com.example.app\"".data abg = true ∧
      occursB "applicationId = \"com.example.app\"".data abg = true ∧
      mainActivityPath a = rootOf a ++ ["app".data, "src".data, "main".data, "java".data,
        "com".data, "example".data, "app".data, "MainActivity.kt".data] ∧
      ((create_project a fs).1).read (mainActivityPath a) =
        some (renderMainActivity "com.example.app".data) ∧
      "package com.example.app\n".data.isPrefixOf (renderMainActivity "com.example.app".data) = true := by
  have hr := create_read_appBuild a fs hroot
  rw [hid] at hr
  have hrid : rId "com.example.app".data a.compile_sdk a.min_sdk a.target_sdk =
      "com.example.app".data := by
    rw [rId]
    rw [pyReplace_noMatch patCompile (pyStr a.compile_sdk) "com.example.app".data (by decide)]
    rw [pyReplace_noMatch patMin (pyStr a.min_sdk) "com.example.app".data (by decide)]
    rw [pyReplace_noMatch patTarget (pyStr a.target_sdk) "com.example.app".data (by decide)]
  have hdec := renderAppBuild_decomp "com.example.app".data a.compile_sdk a.min_sdk a.target_sdk
  rw [hrid] at hdec
  refine ⟨renderAppBuild "com.example.app".data a.compile_sdk a.min_sdk a.target_sdk,
    hr, hdec, ?_, ?_, ?_, ?_, by decide⟩
  · rw [hdec]
    exact occursB_spine1 _ _ _ _ _ (by decide)
  · rw [hdec]
    exact occursB_append_right _ _ _ (occursB_append_right _ _ _ (occursB_append_right _ _ _
      (occursB_append_right _ _ _ (occursB_spine1 _ _ _ _ _ (by decide)))))
  · rw [mainActivityPath, hid]
    have hsegs : appIdSegs "com.example.app".data =
        ["com".data, "example".data, "app".data] := by decide
    rw [hsegs]
    simp [List.append_assoc]
  · rw [← hid]
    exact create_read_stub_none a fs hroot hs

/-- Witness for C2 at concrete inputs. -/
theorem c2_witness :
    ∃ abg, ((create_project aBase fsEmpty).1).read (rootOf aBase ++ ["app".data, "build.gradle.kts".data]) = some abg ∧
      abg = chunkX0 ++ ("com.example.app".data ++ (chunkX1a ++ (pyStr aBase.compile_sdk ++ (chunkX1b ++
        ("com.example.app".data ++ (chunkY1a ++ (pyStr aBase.min_sdk ++ (chunkY2a ++
        (pyStr aBase.target_sdk ++ chunkY3))))))))) ∧
      occursB "namespace = \"com.example.app\"".data abg = true ∧
      occursB "applicationId = \"com.example.app\"".data abg = true ∧
      mainActivityPath aBase = rootOf aBase ++ ["app".data, "src".data, "main".data, "java".data,
        "com".data, "example".data, "app".data, "MainActivity.kt".data] ∧
      ((create_project aBase fsEmpty).1).read (mainActivityPath aBase) =
        some (renderMainActivity "com.example.app".data) ∧
      "package com.example.app\n".data.isPrefixOf (renderMainActivity "com.example.app".data) = true :=
  c2_placeholder_consistency aBase fsEmpty rfl rfl rfl

/-- C7: with `compile_sdk = 34`, `min_sdk = 24`, `target_sdk = 34`, the
rendered app-module build file carries the literals `34`, `24`, `34` at the
`compileSdk`, `minSdk` and `targetSdk` fields; no other content of the
template is altered (the fixed chunks, with all their other numerals, appear
verbatim in the decomposition); and in general every SDK integer is rendered
in base 10 with no leading zeros and no grouping separators. -/
theorem c7_sdk_rendering (a : ProjectArgs) (fs : FS)
    (hcs : a.compile_sdk = 34) (hms : a.min_sdk = 24) (hts : a.target_sdk = 34)
    (hroot : fs.existsP (rootOf a) = false) :
    ∃ u abg, ((create_project a fs).1).read (rootOf a ++ ["app".data, "build.gradle.kts".data]) = some abg ∧
      abg = chunkX0 ++ (u ++ (chunkX1a ++ ("34".data ++ (chunkX1b ++ (u ++ (chunkY1a ++
        ("24".data ++ (chunkY2a ++ ("34".data ++ chunkY3))))))))) ∧
      occursB "compileSdk = 34".data abg = true ∧
      occursB "minSdk = 24".data abg = true ∧
      occursB "targetSdk = 34".data abg = true ∧
      (∀ i : Int, isCanonIntB (pyStr i) = true) := by
  have hr := create_read_appBuild a fs hroot
  rw [hcs, hms, hts] at hr
  have hdec := renderAppBuild_decomp a.application_id 34 24 34
  have h34 : pyStr 34 = "34".data := by decide
  have h24 : pyStr 24 = "24".data := by decide
  rw [h34, h24] at hdec
  refine ⟨rId a.application_id 34 24 34, renderAppBuild a.application_id 34 24 34,
    hr, hdec, ?_, ?_, ?_, pyStr_canon⟩
  · rw [hdec]
    exact occursB_append_right _ _ _ (occursB_append_right _ _ _
      (occursB_spine0 _ _ _ _ (by decide)))
  · rw [hdec]
    exact occursB_append_right _ _ _ (occursB_append_right _ _ _ (occursB_append_right _ _ _
      (occursB_append_right _ _ _ (occursB_append_right _ _ _ (occursB_append_right _ _ _
      (occursB_spine0 _ _ _ _ (by decide)))))))
  · rw [hdec]
    exact occursB_append_right _ _ _ (occursB_append_right _ _ _ (occursB_append_right _ _ _
      (occursB_append_right _ _ _ (occursB_append_right _ _ _ (occursB_append_right _ _ _
      (occursB_append_right _ _ _ (occursB_append_right _ _ _
      (occursB_spine0 _ _ _ _ (by decide)))))))))

/-- Witness for C7 at concrete inputs. -/
theorem c7_witness :
    ∃ u abg, ((create_project aBase fsEmpty).1).read (rootOf aBase ++ ["app".data, "build.gradle.kts".data]) = some abg ∧
      abg = chunkX0 ++ (u ++ (chunkX1a ++ ("34".data ++ (chunkX1b ++ (u ++ (chunkY1a ++
        ("24".data ++ (chunkY2a ++ ("34".data ++ chunkY3))))))))) ∧
      occursB "compileSdk = 34".data abg = true ∧
      occursB "minSdk = 24".data abg = true ∧
      occursB "targetSdk = 34".data abg = true ∧
      (∀ i : Int, isCanonIntB (pyStr i) = true) :=
  c7_sdk_rendering aBase fsEmpty rfl rfl rfl rfl

/-- C9: `create_project` is deterministic — for the same `ProjectSpec`, two
calls (against possibly different filesystems in which the root is free)
write exactly the same list of output paths, and every generated
(non-copied) file gets exactly the same contents, computed from the spec
fields alone; with a caller-supplied source file, only that copied stub's
contents depend on the filesystem, through the bytes of the supplied file. -/
theorem c9_deterministic (a : ProjectArgs) (fs1 fs2 : FS)
    (h1 : fs1.existsP (rootOf a) = false) (h2 : fs2.existsP (rootOf a) = false) :
    (a.source_file = none →
      ∃ ws, (create_project a fs1).1.files = ws ++ fs1.files ∧
        (create_project a fs2).1.files = ws ++ fs2.files ∧
        (create_project a fs1).2 = .ok (rootOf a) ∧
        (create_project a fs2).2 = .ok (rootOf a)) ∧
    (∀ src c1 c2, a.source_file = some src → ¬ rootOf a <+: src →
      fs1.read src = some c1 → fs2.read src = some c2 →
      ∃ ws, (create_project a fs1).1.files = (mainActivityPath a, c1) :: (ws ++ fs1.files) ∧
        (create_project a fs2).1.files = (mainActivityPath a, c2) :: (ws ++ fs2.files) ∧
        (create_project a fs1).2 = .ok (rootOf a) ∧
        (create_project a fs2).2 = .ok (rootOf a)) := by
  constructor
  · intro hs
    refine ⟨_, create_files_none a fs1 h1 hs, create_files_none a fs2 h2 hs, ?_, ?_⟩
    · rw [create_project_ok_none a fs1 h1 hs]
    · rw [create_project_ok_none a fs2 h2 hs]
  · intro src c1 c2 hs hpre hr1 hr2
    obtain ⟨ha1, _, hf1⟩ := create_some_shape a fs1 src c1 h1 hs hpre hr1
    obtain ⟨ha2, _, hf2⟩ := create_some_shape a fs2 src c2 h2 hs hpre hr2
    refine ⟨[(rootOf a ++ ["app".data, "src".data, "main".data, "res".data, "values".data, "strings.xml".data], renderStrings a.app_name),
      (rootOf a ++ ["app".data, "src".data, "main".data, "AndroidManifest.xml".data], ANDROID_MANIFEST),
      (rootOf a ++ ["app".data, "proguard-rules.pro".data], ([] : List Char)),
      (rootOf a ++ ["app".data, "build.gradle.kts".data], renderAppBuild a.application_id a.compile_sdk a.min_sdk a.target_sdk),
      (rootOf a ++ ["gradle.properties".data], GRADLE_PROPERTIES),
      (rootOf a ++ ["build.gradle.kts".data], ROOT_BUILD_GRADLE),
      (rootOf a ++ ["settings.gradle.kts".data], renderSettings a.project_name)], ?_, ?_, ha1, ha2⟩
    · rw [hf1]
      rfl
    · rw [hf2]
      rfl

/-- Witness for C9 at concrete inputs: the same spec against two different
filesystems writes identical files. -/
theorem c9_witness :
    ∃ ws, (create_project aBase fsEmpty).1.files = ws ++ fsEmpty.files ∧
      (create_project aBase fsSrc).1.files = ws ++ fsSrc.files ∧
      (create_project aBase fsEmpty).2 = .ok (rootOf aBase) ∧
      (create_project aBase fsSrc).2 = .ok (rootOf aBase) :=
  (c9_deterministic aBase fsEmpty fsSrc rfl (by decide)).1 rfl
